import Mathlib

/-!
Verification of the Style/Geometry → Layer-Tree inference engine of the
`figma-web-import` repository.

The TypeScript sources
  packages/shared/src/converters/color-utils.ts
  packages/shared/src/converters/style-parser.ts   (second segment of layer-meta.ts)
  packages/shared/src/converters/dom-to-layer.ts   (third segment of layer-meta.ts)
are shallowly embedded below.  JavaScript numbers are modelled as `Rat`
(exact rational arithmetic; the computations of the engine are ratios of
decimal literals, so the float rounding of the original cannot distinguish
the inputs used here); the JavaScript `NaN` produced by a failed
`parseFloat`/`parseInt` is modelled as `none : Option Rat`.  All rational
arithmetic is routed through `mkRat`-based helpers so that every definition
reduces inside the kernel (`Rat.add` and friends are `@[irreducible]` in
the ambient library).

Browser interfaces (computed styles, bounding rectangles, `innerText`,
range measurement of text nodes, the canvas rasterization of icon glyphs
and the trigonometry of `matrix()` rotations) are inputs of the engine,
not part of it; they are modelled as explicit fields of the DOM snapshot
respectively as small oracle records, each documented at its declaration.
-/

namespace FigmaCapture

/-! ### Rational / JavaScript-number primitives -/

/-- Rational literal `n / d`; all concrete fractions are written with it
because numeric `/` on `Rat` is irreducible in the ambient library. -/
def q (n : Int) (d : Nat) : Rat := mkRat n d

/-- Addition on `Rat` via `mkRat` (kernel-reducible, equal to `+`). -/
def qadd (a b : Rat) : Rat := mkRat (a.num * b.den + b.num * a.den) (a.den * b.den)

/-- Subtraction on `Rat` via `mkRat`. -/
def qsub (a b : Rat) : Rat := mkRat (a.num * b.den - b.num * a.den) (a.den * b.den)

/-- Multiplication on `Rat` via `mkRat`. -/
def qmul (a b : Rat) : Rat := mkRat (a.num * b.num) (a.den * b.den)

/-- Division on `Rat` via `mkRat`.  Division by zero yields `0`; the
embedded code only ever divides by positive quantities. -/
def qdiv (a b : Rat) : Rat := mkRat (a.num * Int.sign b.num * b.den) (a.den * b.num.natAbs)

/-- Negation on `Rat` via `mkRat`. -/
def qneg (a : Rat) : Rat := mkRat (-a.num) a.den

/-- `Math.abs`. -/
def qabs (a : Rat) : Rat := if a.num < 0 then qneg a else a

/-- Floor of a rational as an integer. -/
def ratFloorInt (x : Rat) : Int := x.num.fdiv (x.den : Int)

/-- `Math.round`: rounds half toward positive infinity. -/
def jsRound (x : Rat) : Rat := mkRat (ratFloorInt (qadd x (q 1 2))) 1

/-- Truncation toward zero (the rounding of the JavaScript `%`). -/
def jsTrunc (x : Rat) : Int := x.num.tdiv (x.den : Int)

/-- JavaScript `%` on finite numbers: truncated remainder. -/
def jsMod (a b : Rat) : Rat := qsub a (qmul b (mkRat (jsTrunc (qdiv a b)) 1))

-- (`jsTrunc` above uses `Int.div`-style truncation toward zero.)

/-- `Math.max` on two finite numbers. -/
def jsMax (a b : Rat) : Rat := if a < b then b else a

/-- `Math.min` on two finite numbers. -/
def jsMin (a b : Rat) : Rat := if b < a then b else a

/-- A JavaScript number that may be `NaN` (`none`). -/
abbrev JsNum := Option Rat

/-- The JavaScript idiom `x || d` applied to a possibly-`NaN` number:
`NaN` and `0` are falsy. -/
def jsOr (x : JsNum) (d : Rat) : Rat :=
  match x with
  | none => d
  | some v => if v = 0 then d else v

/-! ### Character / string primitives

All scanning is done over `List Char`.  `String.toLowerCase`, `trim` and
the whitespace class are modelled for ASCII, which covers every value a
CSS computed style can contain. -/

/-- The JavaScript `\s` class (ASCII part). -/
def jsIsWs (c : Char) : Bool :=
  c = ' ' || c = '\t' || c = '\n' || c = '\r' || c.toNat = 11 || c.toNat = 12

/-- ASCII decimal digit. -/
def isDigitC (c : Char) : Bool := 48 ≤ c.toNat && c.toNat ≤ 57

/-- Value of a decimal digit. -/
def digitValC (c : Char) : Nat := c.toNat - 48

/-- ASCII hexadecimal digit (`[a-fA-F0-9]`). -/
def isHexC (c : Char) : Bool :=
  isDigitC c || (97 ≤ c.toNat && c.toNat ≤ 102) || (65 ≤ c.toNat && c.toNat ≤ 70)

/-- Value of a hexadecimal digit. -/
def hexValC (c : Char) : Nat :=
  if isDigitC c then c.toNat - 48
  else if 97 ≤ c.toNat then c.toNat - 87
  else c.toNat - 55

/-- ASCII letter. -/
def isAlphaC (c : Char) : Bool :=
  (65 ≤ c.toNat && c.toNat ≤ 90) || (97 ≤ c.toNat && c.toNat ≤ 122)

/-- The JavaScript `\w` class: letters, digits and underscore. -/
def isWordC (c : Char) : Bool := isAlphaC c || isDigitC c || c = '_'

/-- ASCII lower-casing of one character. -/
def toLowerC (c : Char) : Char :=
  if 65 ≤ c.toNat && c.toNat ≤ 90 then Char.ofNat (c.toNat + 32) else c

/-- ASCII `toLowerCase`. -/
def lowerL (l : List Char) : List Char := l.map toLowerC

/-- Decimal digits to a natural number. -/
def digitsToNat (l : List Char) : Nat := l.foldl (fun a c => a * 10 + digitValC c) 0

/-- Hexadecimal digits to a natural number (`parseInt(h, 16)` on an
already validated digit string). -/
def hexToNat (l : List Char) : Nat := l.foldl (fun a c => a * 16 + hexValC c) 0

/-- `10 ^ k`. -/
def pow10 (k : Nat) : Nat := 10 ^ k

/-- Does `needle` occur as a prefix of `hay`? -/
def prefixL : List Char → List Char → Bool
  | [], _ => true
  | _, [] => false
  | a :: as, b :: bs => a = b && prefixL as bs

/-- Index of the first occurrence of `needle` in `hay` (`String.indexOf`). -/
def findSubIdx (hay needle : List Char) : Option Nat :=
  go hay 0
where
  go : List Char → Nat → Option Nat
    | [], i => if prefixL needle [] then some i else none
    | l@(_ :: rest), i => if prefixL needle l then some i else go rest (i + 1)

/-- `String.includes`. -/
def containsL (hay needle : List Char) : Bool := (findSubIdx hay needle).isSome

/-- `String.startsWith`. -/
def startsWithL (hay needle : List Char) : Bool := prefixL needle hay

/-- `String.endsWith`. -/
def endsWithL (hay needle : List Char) : Bool := prefixL needle.reverse hay.reverse

/-- `String.trim` (ASCII whitespace). -/
def trimL (l : List Char) : List Char :=
  ((l.dropWhile jsIsWs).reverse.dropWhile jsIsWs).reverse

/-- `String.replace` with a plain-string pattern: replaces the first
occurrence only. -/
def replaceFirstL (hay needle repl : List Char) : List Char :=
  match findSubIdx hay needle with
  | none => hay
  | some i => hay.take i ++ repl ++ hay.drop (i + needle.length)

mutual

/-- Accumulating scanner for `splitWsRuns`: inside a piece. -/
def splitWsGo : List Char → List Char → List (List Char)
  | [], acc => [acc.reverse]
  | c :: rest, acc =>
    if jsIsWs c then acc.reverse :: splitWsSkip rest
    else splitWsGo rest (c :: acc)

/-- Accumulating scanner for `splitWsRuns`: inside a whitespace run. -/
def splitWsSkip : List Char → List (List Char)
  | [] => [[]]
  | c :: rest => if jsIsWs c then splitWsSkip rest else splitWsGo rest [c]

end

/-- `String.split(/\s+/)`: pieces between maximal whitespace runs,
keeping the empty leading/trailing pieces JavaScript produces. -/
def splitWsRuns (l : List Char) : List (List Char) := splitWsGo l []

/-- `span`-style split at the longest prefix of decimal digits. -/
def spanDigits (l : List Char) : List Char × List Char :=
  (l.takeWhile isDigitC, l.dropWhile isDigitC)

/-- JavaScript `parseFloat`: optional leading whitespace, optional sign,
decimal digits with optional fraction, optional exponent; `NaN` (`none`)
when no digit is found.  (`Infinity` literals are not modelled; no CSS
computed value contains them.) -/
def parseFloatL (l : List Char) : Option Rat :=
  let l1 := l.dropWhile jsIsWs
  let (sgn, l2) : Int × List Char :=
    match l1 with
    | '-' :: r => (-1, r)
    | '+' :: r => (1, r)
    | _ => (1, l1)
  let (d1, r1) := spanDigits l2
  let (d2, r2) : List Char × List Char :=
    match r1 with
    | '.' :: r => spanDigits r
    | _ => ([], r1)
  if d1.isEmpty && d2.isEmpty then none
  else
    let mant : Rat := mkRat (sgn * (digitsToNat (d1 ++ d2) : Nat)) (pow10 d2.length)
    let r3 := if d2.isEmpty then (match r1 with | '.' :: r => r | _ => r1) else r2
    match r3 with
    | c :: r4 =>
      if c = 'e' || c = 'E' then
        let (esgn, r5) : Int × List Char :=
          match r4 with
          | '-' :: r => (-1, r)
          | '+' :: r => (1, r)
          | _ => (1, r4)
        let (d3, _) := spanDigits r5
        if d3.isEmpty then some mant
        else if esgn = 1 then some (qmul mant (mkRat (pow10 (digitsToNat d3)) 1))
        else some (qdiv mant (mkRat (pow10 (digitsToNat d3)) 1))
      else some mant
    | [] => some mant

/-- JavaScript `parseFloat` on a `String`. -/
def jsParseFloat (s : String) : Option Rat := parseFloatL s.data

/-- JavaScript `parseInt(s, 10)`: optional whitespace and sign, then
leading decimal digits; `NaN` (`none`) when no digit is found. -/
def jsParseInt (s : String) : Option Rat :=
  let l1 := s.data.dropWhile jsIsWs
  let (sgn, l2) : Int × List Char :=
    match l1 with
    | '-' :: r => (-1, r)
    | '+' :: r => (1, r)
    | _ => (1, l1)
  let (d, _) := spanDigits l2
  if d.isEmpty then none else some (mkRat (sgn * (digitsToNat d : Nat)) 1)

/-! ### color-utils.ts -/

/-- RGBA color.  `a` is a JavaScript number that can be `NaN` (`none`):
the only assignment that can produce `NaN` is the `hsl` alpha group of
`parseColor`; every other branch writes a finite value. -/
structure RGBA where
  r : Rat
  g : Rat
  b : Rat
  a : JsNum
deriving DecidableEq, Repr

/-- `hslToRgb(h, s, l)` of color-utils.ts. -/
def hslToRgb (h s0 l0 : Rat) : Rat × Rat × Rat :=
  let s := qdiv s0 (q 100 1)
  let l := qdiv l0 (q 100 1)
  let c := qmul (qsub 1 (qabs (qsub (qmul 2 l) 1))) s
  let x := qmul c (qsub 1 (qabs (qsub (jsMod (qdiv h (q 60 1)) 2) 1)))
  let m := qsub l (qdiv c (q 2 1))
  let rgb : Rat × Rat × Rat :=
    if h < 60 then (c, x, 0)
    else if h < 120 then (x, c, 0)
    else if h < 180 then (0, c, x)
    else if h < 240 then (0, x, c)
    else if h < 300 then (x, 0, c)
    else (c, 0, x)
  (qadd rgb.1 m, qadd rgb.2.1 m, qadd rgb.2.2 m)

/-- The `namedColors` table of color-utils.ts (object-key lookup). -/
def namedColors (s : String) : Option RGBA :=
  if s = "white" then some ⟨1, 1, 1, some 1⟩
  else if s = "black" then some ⟨0, 0, 0, some 1⟩
  else if s = "red" then some ⟨1, 0, 0, some 1⟩
  else if s = "green" then some ⟨0, q 502 1000, 0, some 1⟩
  else if s = "blue" then some ⟨0, 0, 1, some 1⟩
  else if s = "gray" then some ⟨q 502 1000, q 502 1000, q 502 1000, some 1⟩
  else if s = "grey" then some ⟨q 502 1000, q 502 1000, q 502 1000, some 1⟩
  else if s = "yellow" then some ⟨1, 1, 0, some 1⟩
  else if s = "orange" then some ⟨1, q 647 1000, 0, some 1⟩
  else if s = "purple" then some ⟨q 502 1000, 0, q 502 1000, some 1⟩
  else if s = "pink" then some ⟨1, q 753 1000, q 796 1000, some 1⟩
  else if s = "cyan" then some ⟨0, 1, 1, some 1⟩
  else if s = "magenta" then some ⟨1, 0, 1, some 1⟩
  else if s = "brown" then some ⟨q 647 1000, q 165 1000, q 165 1000, some 1⟩
  else if s = "navy" then some ⟨0, 0, q 502 1000, some 1⟩
  else if s = "teal" then some ⟨0, q 502 1000, q 502 1000, some 1⟩
  else if s = "silver" then some ⟨q 753 1000, q 753 1000, q 753 1000, some 1⟩
  else if s = "maroon" then some ⟨q 502 1000, 0, 0, some 1⟩
  else if s = "olive" then some ⟨q 502 1000, q 502 1000, 0, some 1⟩
  else if s = "lime" then some ⟨0, 1, 0, some 1⟩
  else if s = "aqua" then some ⟨0, 1, 1, some 1⟩
  else if s = "fuchsia" then some ⟨1, 0, 1, some 1⟩
  else if s = "transparent" then some ⟨0, 0, 0, some 0⟩
  else none

/-- `clamp01` of color-utils.ts. -/
def clamp01 (v : Rat) : Rat := jsMax 0 (jsMin 1 v)

/-- Scanner for the regex group `\d+(?:\.\d+)?` followed by the context
of the rgb/hsl patterns: a maximal digit run, then an optional fraction
taken only when a digit follows the dot.  Returns the numeric value of
the matched text (the composition with `parseFloat` in the source) and
the remaining input.  (The continuations of all uses start with a
non-digit, so no further backtracking into the run can succeed.) -/
def scanNumGroup (l : List Char) : Option (Rat × List Char) :=
  let (d1, r1) := spanDigits l
  if d1.isEmpty then none
  else
    match r1 with
    | '.' :: r2 =>
      let (d2, r3) := spanDigits r2
      if d2.isEmpty then some (mkRat (digitsToNat d1 : Nat) 1, r1)
      else some (mkRat (digitsToNat (d1 ++ d2) : Nat) (pow10 d2.length), r3)
    | _ => some (mkRat (digitsToNat d1 : Nat) 1, r1)

/-- A match of the comma/space rgb(a) patterns: the three channel group
values and the optional alpha group with its `%` flag. -/
structure RgbaMatch where
  c1 : Rat
  c2 : Rat
  c3 : Rat
  alpha : Option (Rat × Bool)
deriving DecidableEq, Repr

/-- One-position matcher for
`rgba?\(\s*(\d+(?:\.\d+)?)\s*,\s*(\d+(?:\.\d+)?)\s*,\s*(\d+(?:\.\d+)?)\s*(?:,\s*(\d+(?:\.\d+)?)(%?))?\s*\)`. -/
def matchRgbaCommaAt (l : List Char) : Option RgbaMatch := do
  let rest ←
    if prefixL "rgba(".data l then some (l.drop 5)
    else if prefixL "rgb(".data l then some (l.drop 4)
    else none
  let (v1, r1) ← scanNumGroup (rest.dropWhile jsIsWs)
  let r1 := r1.dropWhile jsIsWs
  match r1 with
  | ',' :: r2 =>
    let (v2, r3) ← scanNumGroup (r2.dropWhile jsIsWs)
    let r3 := r3.dropWhile jsIsWs
    match r3 with
    | ',' :: r4 =>
      let (v3, r5) ← scanNumGroup (r4.dropWhile jsIsWs)
      let r5 := r5.dropWhile jsIsWs
      match r5 with
      | ',' :: r6 =>
        let (v4, r7) ← scanNumGroup (r6.dropWhile jsIsWs)
        let (pct, r8) : Bool × List Char :=
          match r7 with
          | '%' :: r => (true, r)
          | _ => (false, r7)
        match r8.dropWhile jsIsWs with
        | ')' :: _ => some ⟨v1, v2, v3, some (v4, pct)⟩
        | _ => none
      | ')' :: _ => some ⟨v1, v2, v3, none⟩
      | _ => none
    | _ => none
  | _ => none

/-- Leftmost-search driver for a one-position matcher. -/
def searchPos {α : Type} (m : List Char → Option α) : List Char → Option α
  | [] => m []
  | l@(_ :: rest) =>
    match m l with
    | some r => some r
    | none => searchPos m rest

/-- One-position matcher for
`rgba?\(\s*(\d+(?:\.\d+)?)\s+(\d+(?:\.\d+)?)\s+(\d+(?:\.\d+)?)\s*(?:\/\s*(\d+(?:\.\d+)?)(%?))?\s*\)`. -/
def matchRgbaSpaceAt (l : List Char) : Option RgbaMatch := do
  let rest ←
    if prefixL "rgba(".data l then some (l.drop 5)
    else if prefixL "rgb(".data l then some (l.drop 4)
    else none
  let (v1, r1) ← scanNumGroup (rest.dropWhile jsIsWs)
  let r1w := r1.dropWhile jsIsWs
  if r1w.length = r1.length then none
  else do
    let (v2, r2) ← scanNumGroup r1w
    let r2w := r2.dropWhile jsIsWs
    if r2w.length = r2.length then none
    else do
      let (v3, r3) ← scanNumGroup r2w
      let r3w := r3.dropWhile jsIsWs
      match r3w with
      | '/' :: r4 =>
        let (v4, r5) ← scanNumGroup (r4.dropWhile jsIsWs)
        let (pct, r6) : Bool × List Char :=
          match r5 with
          | '%' :: r => (true, r)
          | _ => (false, r5)
        match r6.dropWhile jsIsWs with
        | ')' :: _ => some ⟨v1, v2, v3, some (v4, pct)⟩
        | _ => none
      | ')' :: _ => some ⟨v1, v2, v3, none⟩
      | _ => none

/-- One-position matcher for
`hsla?\((\d+),\s*(\d+)%,\s*(\d+)%(?:,\s*([\d.]+))?\)`.  The fourth
component is the alpha group: absent (`none`), or present with the
`parseFloat` of its text (`some none` models a `NaN` such as the one a
dots-only group produces). -/
def matchHslAt (l : List Char) : Option (Rat × Rat × Rat × Option JsNum) := do
  let rest ←
    if prefixL "hsla(".data l then some (l.drop 5)
    else if prefixL "hsl(".data l then some (l.drop 4)
    else none
  let (d1, r1) := spanDigits rest
  if d1.isEmpty then none
  else
    match r1 with
    | ',' :: r2 =>
      let (d2, r3) := spanDigits (r2.dropWhile jsIsWs)
      if d2.isEmpty then none
      else
        match r3 with
        | '%' :: ',' :: r4 =>
          let (d3, r5) := spanDigits (r4.dropWhile jsIsWs)
          if d3.isEmpty then none
          else
            match r5 with
            | '%' :: r6 =>
              let mk3 : Rat × Rat × Rat :=
                (mkRat (digitsToNat d1 : Nat) 1, mkRat (digitsToNat d2 : Nat) 1,
                  mkRat (digitsToNat d3 : Nat) 1)
              match r6 with
              | ',' :: r7 =>
                let grp := (r7.dropWhile jsIsWs).takeWhile (fun c => isDigitC c || c = '.')
                let r8 := (r7.dropWhile jsIsWs).dropWhile (fun c => isDigitC c || c = '.')
                if grp.isEmpty then none
                else
                  match r8 with
                  | ')' :: _ => some (mk3.1, mk3.2.1, mk3.2.2, some (parseFloatL grp))
                  | _ => none
              | ')' :: _ => some (mk3.1, mk3.2.1, mk3.2.2, none)
              | _ => none
            | _ => none
        | _ => none
    | _ => none

/-- Anchored matcher for `^#([a-fA-F0-9]{3,8})$`. -/
def hexAnchored (l : List Char) : Option (List Char) :=
  match l with
  | '#' :: rest =>
    if rest.all isHexC && 3 ≤ rest.length && rest.length ≤ 8 then some rest else none
  | _ => none

/-- `parseHexColor` of color-utils.ts. -/
def parseHexColor (hex : List Char) : RGBA :=
  match hex with
  | [a, b, c] =>
    ⟨q (hexToNat [a, a]) 255, q (hexToNat [b, b]) 255, q (hexToNat [c, c]) 255, some 1⟩
  | [a, b, c, d] =>
    ⟨q (hexToNat [a, a]) 255, q (hexToNat [b, b]) 255, q (hexToNat [c, c]) 255,
      some (q (hexToNat [d, d]) 255)⟩
  | [a, b, c, d, e, f] =>
    ⟨q (hexToNat [a, b]) 255, q (hexToNat [c, d]) 255, q (hexToNat [e, f]) 255, some 1⟩
  | [a, b, c, d, e, f, g, h] =>
    ⟨q (hexToNat [a, b]) 255, q (hexToNat [c, d]) 255, q (hexToNat [e, f]) 255,
      some (q (hexToNat [g, h]) 255)⟩
  | _ => ⟨0, 0, 0, some 1⟩

/-- The rgb/rgba channel construction shared by the comma and space
branches of `parseColor`. -/
def rgbaFromMatch (m : RgbaMatch) : RGBA :=
  let alpha : Rat :=
    match m.alpha with
    | none => 1
    | some (v, pct) => if pct then qdiv v (q 100 1) else v
  ⟨clamp01 (qdiv m.c1 (q 255 1)), clamp01 (qdiv m.c2 (q 255 1)),
    clamp01 (qdiv m.c3 (q 255 1)), some (clamp01 alpha)⟩

/-- `parseColor(cssColor, fallbackColor?)` of color-utils.ts. -/
def parseColor (cssColor : String) (fallbackColor : Option RGBA) : RGBA :=
  if cssColor = "currentColor" || cssColor = "inherit" || cssColor = "initial"
      || cssColor = "unset" then
    fallbackColor.getD ⟨0, 0, 0, some 1⟩
  else if cssColor = "transparent" || cssColor = "rgba(0, 0, 0, 0)" then
    ⟨0, 0, 0, some 0⟩
  else
    match searchPos matchRgbaCommaAt cssColor.data with
    | some m => rgbaFromMatch m
    | none =>
      match searchPos matchRgbaSpaceAt cssColor.data with
      | some m => rgbaFromMatch m
      | none =>
        match searchPos matchHslAt cssColor.data with
        | some (h, s, l, al) =>
          let rgb := hslToRgb h s l
          ⟨rgb.1, rgb.2.1, rgb.2.2, match al with | none => some 1 | some v => v⟩
        | none =>
          match hexAnchored cssColor.data with
          | some hx => parseHexColor hx
          | none =>
            match namedColors (String.mk (lowerL cssColor.data)) with
            | some c => c
            | none => ⟨0, 0, 0, some 1⟩

/-- Count of characters consumed by the balanced-paren loop of
`extractBalancedParens` / `extractColorValue`: scans with a starting
depth of 1 and stops one character after depth reaches 0, or at the end
of the input. -/
def ebpCount : List Char → Nat → Nat → Nat
  | [], _, n => n
  | c :: rest, depth, n =>
    let depth1 := if c = '(' then depth + 1 else depth
    let depth2 := if c = ')' then depth1 - 1 else depth1
    if depth2 = 0 then n + 1 else ebpCount rest depth2 (n + 1)

/-- `extractBalancedParens(str, startIndex)` of color-utils.ts: content
up to (excluding) the closing parenthesis; when the input ends before
the parens balance, the source's `substring(startIndex, i - 1)` drops
the final character, which is mirrored here. -/
def extractBalancedParens (str : List Char) (startIndex : Nat) : List Char :=
  let rest := str.drop startIndex
  rest.take (ebpCount rest 1 0 - 1)

/-- Angle scanner for the regex `(\d+)deg` (leftmost digit run directly
followed by `deg`). -/
def findDegAt (l : List Char) : Option Rat :=
  let (d, r) := spanDigits l
  if d.isEmpty then none
  else if prefixL "deg".data r then some (mkRat (digitsToNat d : Nat) 1) else none

/-- `parseGradientAngle(content)` of color-utils.ts. -/
def parseGradientAngle (content : List Char) : Rat :=
  match searchPos findDegAt content with
  | some v => v
  | none =>
    if containsL content "to right".data then 90
    else if containsL content "to left".data then 270
    else if containsL content "to bottom".data then 180
    else if containsL content "to top".data then 0
    else 180

/-- `extractColorValue(str, startPos)` of color-utils.ts, on the suffix
starting at `startPos`: skips whitespace, then takes either a whole
`rgb/rgba/hsl/hsla(...)` call (balanced parens, or the rest of the
input when unbalanced) or a `#hex` / word token; empty when nothing
matches. -/
def extractColorValue (l : List Char) : List Char :=
  let l1 := l.dropWhile jsIsWs
  let fn : Option Nat :=
    if prefixL "rgba(".data l1 then some 5
    else if prefixL "rgb(".data l1 then some 4
    else if prefixL "hsla(".data l1 then some 5
    else if prefixL "hsl(".data l1 then some 4
    else none
  match fn with
  | some k => l1.take (k + ebpCount (l1.drop k) 1 0)
  | none =>
    match l1 with
    | '#' :: rest =>
      let hx := rest.takeWhile isHexC
      if hx.isEmpty then
        []
      else '#' :: hx
    | _ => l1.takeWhile isWordC

/-- A gradient stop as built by the stop scanner, before normalization:
the `-1` position together with the `_autoGenerated` marker the source
attaches to positionless stops. -/
structure GradStopB where
  position : Rat
  color : RGBA
  autoGen : Bool
deriving DecidableEq, Repr

/-- A finished gradient stop.  (After normalization the source deletes
its `_autoGenerated`/`_autoIndex` markers; stops that skip normalization
keep them as stray object properties, which the declared `GradientStop`
shape does not carry — the embedding drops the marker either way.) -/
structure GradientStop where
  position : Rat
  color : RGBA
deriving DecidableEq, Repr

/-- The scanning loop of `parseGradientStops`: skip whitespace/commas,
extract a color value, then an optional `^(\d+(?:\.\d+)?%?)` position.
Structured on fuel; every iteration consumes at least one character, so
`colorPart.length + 1` steps always suffice (the `0` case is
unreachable at that fuel). -/
def pgsLoop : Nat → List Char → List GradStopB → List GradStopB
  | 0, _, acc => acc.reverse
  | fuel + 1, l, acc =>
    let l1 := l.dropWhile (fun c => jsIsWs c || c = ',')
    if l1.isEmpty then acc.reverse
    else
      let cv := extractColorValue l1
      if cv.isEmpty then acc.reverse
      else
        let r1 := (l1.drop cv.length).dropWhile jsIsWs
        let (pos, r2) : Option Rat × List Char :=
          match scanNumGroup r1 with
          | some (v, r) =>
            match r with
            | '%' :: rr => (some (qdiv v (q 100 1)), rr)
            | _ => (some v, r)
          | none => (none, r1)
        let color := parseColor (String.mk cv) none
        let stop : GradStopB :=
          match pos with
          | some p => ⟨p, color, false⟩
          | none => ⟨q (-1) 1, color, true⟩
        pgsLoop fuel r2 (stop :: acc)

/-- The even-distribution post-pass of `parseGradientStops`: when there
is more than one stop and at least one is auto-generated, every
auto-generated stop at index `idx` receives position
`idx / (stops.length - 1)`. -/
def normalizeStops (stops : List GradStopB) : List GradientStop :=
  if 1 < stops.length && stops.any (fun s => s.autoGen) then
    stops.enum.map (fun p =>
      if p.2.autoGen then
        ⟨qdiv (mkRat (p.1 : Nat) 1) (mkRat ((stops.length - 1 : Nat) : Nat) 1), p.2.color⟩
      else ⟨p.2.position, p.2.color⟩)
  else stops.map (fun s => ⟨s.position, s.color⟩)

/-- `parseGradientStops(content)` of color-utils.ts.  The initial
`content.replace(/^[^,]+,\s*/, '')` removes everything up to and
including the first comma (plus following whitespace) whenever the
input neither starts with a comma nor lacks one — the comma is found
without regard to parenthesis depth. -/
def parseGradientStops (content : List Char) : List GradientStop :=
  let colorPart : List Char :=
    match content with
    | [] => []
    | c :: _ =>
      if c = ',' then content
      else
        match findSubIdx content [','] with
        | none => content
        | some i => (content.drop (i + 1)).dropWhile jsIsWs
  normalizeStops (pgsLoop (colorPart.length + 1) colorPart [])

/-- The result shape of `parseGradient`: `isLinear` models the source's
`type: 'linear' | 'radial'`; `angle` is present only for linear
gradients. -/
structure ParsedGradient where
  isLinear : Bool
  stops : List GradientStop
  angle : Option Rat
deriving DecidableEq, Repr

/-- `parseGradient(cssGradient)` of color-utils.ts. -/
def parseGradient (cssGradient : String) : Option ParsedGradient :=
  match findSubIdx cssGradient.data "linear-gradient(".data with
  | some i =>
    let content := extractBalancedParens cssGradient.data (i + 16)
    some ⟨true, parseGradientStops content, some (parseGradientAngle content)⟩
  | none =>
    match findSubIdx cssGradient.data "radial-gradient(".data with
    | some i =>
      let content := extractBalancedParens cssGradient.data (i + 16)
      some ⟨false, parseGradientStops content, none⟩
    | none => none

/-- `isTransparent(color)` of color-utils.ts (`color.a <= 0`; a `NaN`
alpha compares false). -/
def isTransparent (color : RGBA) : Bool :=
  match color.a with
  | some v => v ≤ 0
  | none => false

/-- Exact-match test for the alpha alternation `(0|0?\.0+|0%)` of the
transparent-string patterns, applied to the full segment before the
closing parenthesis. -/
def matchesAlphaZero (l : List Char) : Bool :=
  l = ['0'] || l = ['0', '%'] ||
    (match l with
     | '0' :: '.' :: r => !r.isEmpty && r.all (fun c => c = '0')
     | '.' :: r => !r.isEmpty && r.all (fun c => c = '0')
     | _ => false)

/-- One-position matcher for
`rgba?\([\d.]+[,\s/]+[\d.]+[,\s/]+[\d.]+[,\s/]+(0|0?\.0+|0%)\)`.
The `[\d.]` and `[,\s/]` classes are disjoint, so the three runs are
forced; the final alternation must reach the closing parenthesis. -/
def matchTransparentListAt (l : List Char) : Option Unit := do
  let rest ←
    if prefixL "rgba(".data l then some (l.drop 5)
    else if prefixL "rgb(".data l then some (l.drop 4)
    else none
  let isNum : Char → Bool := fun c => isDigitC c || c = '.'
  let isSep : Char → Bool := fun c => c = ',' || c = '/' || jsIsWs c
  let d1 := rest.takeWhile isNum
  let r1 := rest.dropWhile isNum
  if d1.isEmpty then none
  else
    let s1 := r1.takeWhile isSep
    let r2 := r1.dropWhile isSep
    if s1.isEmpty then none
    else
      let d2 := r2.takeWhile isNum
      let r3 := r2.dropWhile isNum
      if d2.isEmpty then none
      else
        let s2 := r3.takeWhile isSep
        let r4 := r3.dropWhile isSep
        if s2.isEmpty then none
        else
          let d3 := r4.takeWhile isNum
          let r5 := r4.dropWhile isNum
          if d3.isEmpty then none
          else
            let s3 := r5.takeWhile isSep
            let r6 := r5.dropWhile isSep
            if s3.isEmpty then none
            else
              match findSubIdx r6 [')'] with
              | some j => if matchesAlphaZero (r6.take j) then some () else none
              | none => none

/-- One-position matcher for `rgba?\([^)]+\/\s*(0|0?\.0+|0%)\)`: the
greedy `[^)]+` backtracks to the last `/` before the first closing
parenthesis (earlier slashes leave a `/` inside the alternation's
alphabet-free tail, so only the last one can succeed). -/
def matchTransparentSlashAt (l : List Char) : Option Unit := do
  let rest ←
    if prefixL "rgba(".data l then some (l.drop 5)
    else if prefixL "rgb(".data l then some (l.drop 4)
    else none
  match findSubIdx rest [')'] with
  | none => none
  | some j =>
    let body := rest.take j
    match findSubIdx body.reverse ['/'] with
    | none => none
    | some jr =>
      let slashIdx := body.length - 1 - jr
      if slashIdx = 0 then none
      else
        let tail := (body.drop (slashIdx + 1)).dropWhile jsIsWs
        if matchesAlphaZero tail then some () else none

/-- `isTransparentColorString(cssColor)` of color-utils.ts. -/
def isTransparentColorString (cssColor : String) : Bool :=
  if cssColor = "" then true
  else
    let normalized := (lowerL cssColor.data).filter (fun c => !jsIsWs c)
    if normalized = "transparent".data then true
    else if (searchPos matchTransparentListAt normalized).isSome then true
    else if (searchPos matchTransparentSlashAt normalized).isSome then true
    else if normalized = "rgba(0,0,0,0)".data then true
    else if startsWithL normalized "rgba(".data && endsWithL normalized ",0)".data then true
    else false

/-! ### style-parser.ts : data model -/

/-- The scale modes of an image paint. -/
inductive ScaleMode where
  | fill
  | fit
  | crop
  | tile
deriving DecidableEq, Repr

/-- `Paint` of layer-meta.ts.  `gradient isLinear` models the source's
`GRADIENT_LINEAR`/`GRADIENT_RADIAL` type tags.  The optional
`opacity`/`visible` fields of the source are always set at every
construction site in the embedded code, and are carried as mandatory
fields here. -/
inductive Paint where
  | solid (color : RGBA) (opacity : Rat) (visible : Bool)
  | gradient (isLinear : Bool) (gradientStops : List GradientStop) (angle : Option Rat)
      (opacity : Rat) (visible : Bool)
  | image (imageUrl : String) (scaleMode : ScaleMode) (opacity : Rat) (visible : Bool)
deriving DecidableEq, Repr

/-- Stroke position enum of `StrokeConfig`. -/
inductive StrokePos where
  | inside
  | outside
  | center
deriving DecidableEq, Repr

/-- Per-side border weights of `StrokeConfig.individualWeights`. -/
structure SideWeights where
  top : Rat
  right : Rat
  bottom : Rat
  left : Rat
deriving DecidableEq, Repr

/-- `StrokeConfig` of layer-meta.ts. -/
structure StrokeConfig where
  color : RGBA
  weight : Rat
  position : StrokePos
  dashPattern : Option (List Rat)
  individualWeights : Option SideWeights
deriving DecidableEq, Repr

/-- `Effect` of layer-meta.ts: `shadow inner` models the
`INNER_SHADOW`/`DROP_SHADOW` tags, `blur background` the
`BACKGROUND_BLUR`/`LAYER_BLUR` tags.  `spread`/`visible` are set at
every construction site of the embedded code. -/
inductive Effect where
  | shadow (inner : Bool) (color : RGBA) (offsetX offsetY radius spread : Rat) (visible : Bool)
  | blur (background : Bool) (radius : Rat) (visible : Bool)
deriving DecidableEq, Repr

/-- Corner radius: one scalar or four per-corner values. -/
inductive CornerRadiusV where
  | uniform (v : Rat)
  | corners (topLeft topRight bottomRight bottomLeft : Rat)
deriving DecidableEq, Repr

/-- Line height: pixel value or `'AUTO'`. -/
inductive LineHeight where
  | auto
  | px (v : Rat)
deriving DecidableEq, Repr

/-- Font style enum. -/
inductive FontStyleV where
  | normal
  | italic
deriving DecidableEq, Repr

/-- Text alignment enum. -/
inductive TextAlignV where
  | left
  | center
  | right
  | justified
deriving DecidableEq, Repr

/-- Text decoration enum (`NONE`/`UNDERLINE`/`STRIKETHROUGH`). -/
inductive TextDecorationV where
  | noDeco
  | underline
  | strikethrough
deriving DecidableEq, Repr

/-- Text case enum (`ORIGINAL`/`UPPER`/`LOWER`/`TITLE`). -/
inductive TextCaseV where
  | original
  | upper
  | lower
  | title
deriving DecidableEq, Repr

/-- `TextStyle` of layer-meta.ts. -/
structure TextStyle where
  fontFamily : String
  fontWeight : Rat
  fontStyle : FontStyleV
  fontSize : Rat
  lineHeight : LineHeight
  letterSpacing : Rat
  textAlign : TextAlignV
  textDecoration : TextDecorationV
  textCase : TextCaseV
  color : RGBA
deriving DecidableEq, Repr

/-- Auto-layout direction. -/
inductive LayoutMode where
  | horizontal
  | vertical
deriving DecidableEq, Repr

/-- Primary-axis alignment enum. -/
inductive PrimaryAlign where
  | min
  | center
  | max
  | spaceBetween
deriving DecidableEq, Repr

/-- Counter-axis alignment enum. -/
inductive CounterAlign where
  | min
  | center
  | max
  | baseline
deriving DecidableEq, Repr

/-- Sizing mode enum. -/
inductive SizingMode where
  | fixed
  | auto
deriving DecidableEq, Repr

/-- `AutoLayoutConfig` of layer-meta.ts; `wrap` and `counterAxisStretch`
are genuinely optional in the source and stay `Option`al here. -/
structure AutoLayoutConfig where
  mode : LayoutMode
  primaryAxisAlignItems : PrimaryAlign
  counterAxisAlignItems : CounterAlign
  paddingTop : Rat
  paddingRight : Rat
  paddingBottom : Rat
  paddingLeft : Rat
  itemSpacing : Rat
  primaryAxisSizingMode : SizingMode
  counterAxisSizingMode : SizingMode
  wrap : Option Bool
  counterAxisStretch : Option Bool
deriving DecidableEq, Repr

/-- A computed-style snapshot (`CSSStyleDeclaration` as consumed by the
engine): the flat property→string map the style/geometry provider
returns.  Every property the embedded code reads is a field; a property
the browser would not set is the empty string. -/
structure Style where
  color : String := ""
  backgroundColor : String := ""
  backgroundImage : String := ""
  backgroundSize : String := ""
  borderTopWidth : String := ""
  borderRightWidth : String := ""
  borderBottomWidth : String := ""
  borderLeftWidth : String := ""
  borderTopColor : String := ""
  borderRightColor : String := ""
  borderBottomColor : String := ""
  borderLeftColor : String := ""
  borderTopStyle : String := ""
  borderRightStyle : String := ""
  borderBottomStyle : String := ""
  borderLeftStyle : String := ""
  boxShadow : String := ""
  textShadow : String := ""
  borderRadius : String := ""
  borderTopLeftRadius : String := ""
  borderTopRightRadius : String := ""
  borderBottomRightRadius : String := ""
  borderBottomLeftRadius : String := ""
  fontFamily : String := ""
  fontWeight : String := ""
  fontStyle : String := ""
  fontSize : String := ""
  lineHeight : String := ""
  letterSpacing : String := ""
  textAlign : String := ""
  textDecoration : String := ""
  textDecorationLine : String := ""
  textTransform : String := ""
  display : String := ""
  flexDirection : String := ""
  flexWrap : String := ""
  flexGrow : String := ""
  justifyContent : String := ""
  justifyItems : String := ""
  alignItems : String := ""
  alignContent : String := ""
  gap : String := ""
  columnGap : String := ""
  rowGap : String := ""
  gridTemplateColumns : String := ""
  paddingTop : String := ""
  paddingRight : String := ""
  paddingBottom : String := ""
  paddingLeft : String := ""
  opacity : String := ""
  visibility : String := ""
  zIndex : String := ""
  transform : String := ""
  overflow : String := ""
  maxWidth : String := ""
  appearance : String := ""
  filter : String := ""
  backdropFilter : String := ""
  webkitBackdropFilter : String := ""
  content : String := ""
  width : String := ""
  height : String := ""
  left : String := ""
  top : String := ""
  objectFit : String := ""
  position : String := ""
deriving DecidableEq, Repr

/-! ### style-parser.ts : fills, borders, shadows, radius -/

/-- `splitBackgroundImages(bgImage)` of style-parser.ts: split at
top-level commas, keeping only pieces with nonempty trim. -/
def splitBackgroundImages (bgImage : List Char) : List (List Char) :=
  go bgImage 0 []
where
  go : List Char → Nat → List Char → List (List Char)
    | [], _, current =>
      if (trimL current.reverse).isEmpty then [] else [trimL current.reverse]
    | c :: rest, parenDepth, current =>
      let d1 := if c = '(' then parenDepth + 1 else parenDepth
      let d2 := if c = ')' then d1 - 1 else d1
      if c = ',' && d2 = 0 then
        if (trimL current.reverse).isEmpty then go rest d2 []
        else trimL current.reverse :: go rest d2 []
      else go rest d2 (c :: current)

/-- One-position matcher for `url\(['"]?([^'")\s]+)['"]?\)`, returning
the captured URL. -/
def matchUrlAt (l : List Char) : Option (List Char) :=
  if prefixL "url(".data l then
    let r0 := l.drop 4
    let quote : Char → Bool := fun c => c = '"' || c = Char.ofNat 39
    let r1 := match r0 with
      | c :: r => if quote c then r else r0
      | [] => r0
    let bad : Char → Bool := fun c => quote c || c = ')' || jsIsWs c
    let body := r1.takeWhile (fun c => !bad c)
    let r2 := r1.dropWhile (fun c => !bad c)
    if body.isEmpty then none
    else
      match r2 with
      | c :: ')' :: _ => if quote c then some body else none
      | ')' :: _ => some body
      | _ => none
  else none

/-- `parseBackground(styles)` of style-parser.ts: the paint (if any)
contributed by one comma-separated `background-image` entry.  The
source's resolution of relative URLs against `document.baseURI` is the
`typeof document === 'undefined'` branch here (the engine runs against
a snapshot, not a live document): the matched URL is kept as is. -/
def bgEntryFills (styles : Style) (singleBg : List Char) : List Paint :=
  let trimmedBg := trimL singleBg
  if containsL trimmedBg "url(".data then
    match searchPos matchUrlAt trimmedBg with
    | some url =>
      let scaleMode : ScaleMode :=
        if styles.backgroundSize = "contain" then .fit
        else if styles.backgroundSize = "cover" then .fill
        else .fill
      [Paint.image (String.mk url) scaleMode 1 true]
    | none => []
  else
    match parseGradient (String.mk trimmedBg) with
    | some g => [Paint.gradient g.isLinear g.stops g.angle 1 true]
    | none => []

/-- `parseBackground(styles)` of style-parser.ts. -/
def parseBackground (styles : Style) : List Paint :=
  let textColor := parseColor styles.color none
  let imageFills : List Paint :=
    if styles.backgroundImage ≠ "" && styles.backgroundImage ≠ "none" then
      (splitBackgroundImages styles.backgroundImage.data).flatMap (bgEntryFills styles)
    else []
  let colorFills : List Paint :=
    if styles.backgroundColor ≠ "" && !isTransparentColorString styles.backgroundColor then
      let color := parseColor styles.backgroundColor (some textColor)
      if !isTransparent color then [Paint.solid color 1 true] else []
    else []
  imageFills ++ colorFills

/-- The JavaScript `a || b` on strings: first operand if nonempty. -/
def jsOrS (a b : String) : String := if a = "" then b else a

/-- `parseBorder(styles)` of style-parser.ts. -/
def parseBorder (styles : Style) : Option StrokeConfig :=
  let textColor := parseColor styles.color none
  let topWidth := jsOr (jsParseFloat styles.borderTopWidth) 0
  let rightWidth := jsOr (jsParseFloat styles.borderRightWidth) 0
  let bottomWidth := jsOr (jsParseFloat styles.borderBottomWidth) 0
  let leftWidth := jsOr (jsParseFloat styles.borderLeftWidth) 0
  let maxWidth := jsMax (jsMax topWidth rightWidth) (jsMax bottomWidth leftWidth)
  if 0 < maxWidth then
    let colorStr := jsOrS styles.borderTopColor
      (jsOrS styles.borderRightColor (jsOrS styles.borderBottomColor styles.borderLeftColor))
    let borderStyle := jsOrS styles.borderTopStyle
      (jsOrS styles.borderRightStyle (jsOrS styles.borderBottomStyle styles.borderLeftStyle))
    if colorStr ≠ "" && borderStyle ≠ "none" then
      let color := parseColor colorStr (some textColor)
      if !isTransparent color then
        let allSame := topWidth = rightWidth && rightWidth = bottomWidth
          && bottomWidth = leftWidth
        some
          { color := color
            weight := maxWidth
            position := .inside
            dashPattern :=
              if borderStyle = "dashed" then some [qmul maxWidth 2, maxWidth] else none
            individualWeights :=
              if allSame then none
              else some ⟨topWidth, rightWidth, bottomWidth, leftWidth⟩ }
      else none
    else none
  else none

/-- `splitShadows(boxShadow)` of style-parser.ts: split at top-level
commas; pieces at commas are pushed even when empty, the final piece
only when its trim is nonempty. -/
def splitShadows (boxShadow : List Char) : List (List Char) :=
  go boxShadow 0 []
where
  go : List Char → Nat → List Char → List (List Char)
    | [], _, current =>
      if (trimL current.reverse).isEmpty then [] else [trimL current.reverse]
    | c :: rest, parenDepth, current =>
      let d1 := if c = '(' then parenDepth + 1 else parenDepth
      let d2 := if c = ')' then d1 - 1 else d1
      if c = ',' && d2 = 0 then trimL current.reverse :: go rest d2 []
      else go rest d2 (c :: current)

/-- One-position matcher for `rgba?\s*\([^)]+\)`, returning the whole
matched text. -/
def matchRgbaTokenAt (l : List Char) : Option (List Char) :=
  let pre : Option (List Char × List Char) :=
    if prefixL "rgba".data l then some ("rgba".data, l.drop 4)
    else if prefixL "rgb".data l then some ("rgb".data, l.drop 3)
    else none
  match pre with
  | none => none
  | some (name, r0) =>
    let ws := r0.takeWhile jsIsWs
    let r1 := r0.dropWhile jsIsWs
    match r1 with
    | '(' :: r2 =>
      let body := r2.takeWhile (fun c => c ≠ ')')
      let r3 := r2.dropWhile (fun c => c ≠ ')')
      if body.isEmpty then none
      else
        match r3 with
        | ')' :: _ => some (name ++ ws ++ '(' :: body ++ [')'])
        | _ => none
    | _ => none

/-- One-position matcher for `#[a-fA-F0-9]{3,8}` (an unanchored search
token: at least three hex digits after `#`, at most eight taken). -/
def matchHexTokenAt (l : List Char) : Option (List Char) :=
  match l with
  | '#' :: rest =>
    let hx := rest.takeWhile isHexC
    if 3 ≤ hx.length then some ('#' :: hx.take 8) else none
  | _ => none

/-- The word alternatives of the named-shadow-color pattern
`\b(transparent|white|black|red|green|blue|gray|grey)\b`, in source
order. -/
def shadowColorWords : List (List Char) :=
  ["transparent".data, "white".data, "black".data, "red".data, "green".data,
    "blue".data, "gray".data, "grey".data]

/-- Case-insensitive match of one alternative at the head of `l`,
requiring a non-word character (or the end) right after. -/
def matchWordCI (w l : List Char) : Option (List Char) :=
  go w l []
where
  go : List Char → List Char → List Char → Option (List Char)
    | [], rest, acc =>
      match rest with
      | [] => some acc.reverse
      | c :: _ => if isWordC c then none else some acc.reverse
    | _, [], _ => none
    | wc :: ws, c :: cs, acc =>
      if toLowerC c = wc then go ws cs (c :: acc) else none

/-- Search for `\b(transparent|white|black|red|green|blue|gray|grey)\b`
case-insensitively, returning the matched text (original casing).
`prevWord` tracks whether the previous character is a word character
(the left `\b`). -/
def findShadowColorWord (l : List Char) (prevWord : Bool) : Option (List Char) :=
  match l with
  | [] => none
  | c :: rest =>
    let tryHere : Option (List Char) :=
      if prevWord then none
      else shadowColorWords.foldl (fun acc w =>
        match acc with
        | some r => some r
        | none => matchWordCI w l) none
    match tryHere with
    | some r => some r
    | none => findShadowColorWord rest (isWordC c)

/-- Global scanner for `-?\d+(?:\.\d+)?(?:px)?`: the `parseFloat` values
of all non-overlapping matches, left to right.  Fuel-structured; each
step consumes at least one character, so `l.length + 1` suffices. -/
def numTokensGo : Nat → List Char → List Rat
  | 0, _ => []
  | fuel + 1, l =>
    match l with
    | [] => []
    | _ :: rest =>
      let attempt : Option (Rat × List Char) :=
        let (neg, l1) : Bool × List Char :=
          match l with
          | '-' :: r => (true, r)
          | _ => (false, l)
        match scanNumGroup l1 with
        | none => none
        | some (v, r) =>
          let r2 := if prefixL "px".data r then r.drop 2 else r
          some (if neg then qneg v else v, r2)
      match attempt with
      | some (v, r2) => v :: numTokensGo fuel r2
      | none => numTokensGo fuel rest

/-- All numeric tokens of a shadow string. -/
def numTokens (l : List Char) : List Rat := numTokensGo (l.length + 1) l

/-- The color-extraction step shared by `parseSingleShadow` and
`parseSingleTextShadow`: one color token (rgba, then hex, then named,
in that order), removed from the string by a first-literal-occurrence
`String.replace` plus trim; the default color is black at 25 % alpha. -/
def extractShadowColor (cleanShadow : List Char) : RGBA × List Char :=
  match searchPos matchRgbaTokenAt cleanShadow with
  | some tok =>
    (parseColor (String.mk tok) none, trimL (replaceFirstL cleanShadow tok []))
  | none =>
    match searchPos matchHexTokenAt cleanShadow with
    | some tok =>
      (parseColor (String.mk tok) none, trimL (replaceFirstL cleanShadow tok []))
    | none =>
      match findShadowColorWord cleanShadow false with
      | some tok =>
        (parseColor (String.mk tok) none, trimL (replaceFirstL cleanShadow tok []))
      | none => (⟨0, 0, 0, some (q 1 4)⟩, cleanShadow)

/-- `parseSingleShadow(shadowStr)` of style-parser.ts. -/
def parseSingleShadow (shadowStr : List Char) : Option Effect :=
  let isInset := containsL shadowStr "inset".data
  let cleanShadow0 := trimL (replaceFirstL shadowStr "inset".data [])
  let (color, cleanShadow) := extractShadowColor cleanShadow0
  let numbers := numTokens cleanShadow
  if numbers.length < 2 then none
  else
    some (.shadow isInset color (numbers.getD 0 0) (numbers.getD 1 0)
      (numbers.getD 2 0) (numbers.getD 3 0) true)

/-- `parseBoxShadow(styles)` of style-parser.ts. -/
def parseBoxShadow (styles : Style) : List Effect :=
  if styles.boxShadow = "" || styles.boxShadow = "none" then []
  else (splitShadows styles.boxShadow.data).filterMap parseSingleShadow

/-- `parseSingleTextShadow(shadowStr)` of style-parser.ts: like the box
variant but with no `inset` handling and a spread fixed at `0`. -/
def parseSingleTextShadow (shadowStr : List Char) : Option Effect :=
  let (color, cleanShadow) := extractShadowColor (trimL shadowStr)
  let numbers := numTokens cleanShadow
  if numbers.length < 2 then none
  else
    some (.shadow false color (numbers.getD 0 0) (numbers.getD 1 0)
      (numbers.getD 2 0) 0 true)

/-- `parseTextShadow(styles)` of style-parser.ts. -/
def parseTextShadow (styles : Style) : List Effect :=
  if styles.textShadow = "" || styles.textShadow = "none" then []
  else (splitShadows styles.textShadow.data).filterMap parseSingleTextShadow

/-- `parseBorderRadius(styles)` of style-parser.ts. -/
def parseBorderRadius (styles : Style) : CornerRadiusV :=
  let topLeft := jsOr (jsParseFloat styles.borderTopLeftRadius) 0
  let topRight := jsOr (jsParseFloat styles.borderTopRightRadius) 0
  let bottomRight := jsOr (jsParseFloat styles.borderBottomRightRadius) 0
  let bottomLeft := jsOr (jsParseFloat styles.borderBottomLeftRadius) 0
  if topLeft = topRight && topRight = bottomRight && bottomRight = bottomLeft then
    .uniform topLeft
  else .corners topLeft topRight bottomRight bottomLeft

/-! ### style-parser.ts : text style -/

/-- `parseFontFamily(fontFamily)`: the anchored regex
`^["']?([^"',]+)["']?` takes an optional quote then the maximal run of
non-quote, non-comma characters; the capture is trimmed, `Inter` when
there is no match. -/
def parseFontFamily (fontFamily : String) : String :=
  let quote : Char → Bool := fun c => c = '"' || c = Char.ofNat 39
  let l := fontFamily.data
  let l1 := match l with
    | c :: r => if quote c then r else l
    | [] => l
  let body := l1.takeWhile (fun c => !(quote c || c = ','))
  if body.isEmpty then "Inter" else String.mk (trimL body)

/-- `parseFontWeight(weight)` of style-parser.ts. -/
def parseFontWeight (weight : String) : Rat :=
  match jsParseInt weight with
  | some v => v
  | none =>
    let w := String.mk (lowerL weight.data)
    if w = "thin" then 100
    else if w = "hairline" then 100
    else if w = "extralight" then 200
    else if w = "ultra-light" then 200
    else if w = "light" then 300
    else if w = "normal" then 400
    else if w = "regular" then 400
    else if w = "medium" then 500
    else if w = "semibold" then 600
    else if w = "semi-bold" then 600
    else if w = "bold" then 700
    else if w = "extrabold" then 800
    else if w = "extra-bold" then 800
    else if w = "ultra-bold" then 800
    else if w = "black" then 900
    else if w = "heavy" then 900
    else 400

/-- `parseFontStyle(fontStyle)` of style-parser.ts. -/
def parseFontStyle (fontStyle : String) : FontStyleV :=
  if fontStyle = "italic" || fontStyle = "oblique" then .italic else .normal

/-- `parseLineHeight(lineHeight, fontSize)` of style-parser.ts:
`normal` becomes 1.2 × fontSize rounded to two decimals; a `NaN`
parse becomes `AUTO`; a value containing `px` is returned verbatim;
anything else is treated as a ratio and multiplied by the font size. -/
def parseLineHeight (lineHeight fontSize : String) : LineHeight :=
  if lineHeight = "normal" then
    let fs := jsOr (jsParseFloat fontSize) 16
    .px (qdiv (jsRound (qmul (qmul fs (q 12 10)) (q 100 1))) (q 100 1))
  else
    match jsParseFloat lineHeight with
    | none => .auto
    | some lh =>
      if containsL lineHeight.data "px".data then .px lh
      else .px (qmul lh (jsOr (jsParseFloat fontSize) 16))

/-- `parseLetterSpacing(letterSpacing, fontSize)` of style-parser.ts. -/
def parseLetterSpacing (letterSpacing fontSize : String) : Rat :=
  if letterSpacing = "normal" then 0
  else
    match jsParseFloat letterSpacing with
    | none => 0
    | some ls =>
      if containsL letterSpacing.data "em".data then
        qmul ls (jsOr (jsParseFloat fontSize) 16)
      else ls

/-- `parseTextAlign(textAlign)` of style-parser.ts. -/
def parseTextAlign (textAlign : String) : TextAlignV :=
  if textAlign = "center" then .center
  else if textAlign = "right" || textAlign = "end" then .right
  else if textAlign = "justify" then .justified
  else .left

/-- `parseTextDecoration(textDecoration)` of style-parser.ts. -/
def parseTextDecoration (textDecoration : String) : TextDecorationV :=
  if containsL textDecoration.data "underline".data then .underline
  else if containsL textDecoration.data "line-through".data then .strikethrough
  else .noDeco

/-- `parseTextTransform(textTransform)` of style-parser.ts. -/
def parseTextTransform (textTransform : String) : TextCaseV :=
  if textTransform = "uppercase" then .upper
  else if textTransform = "lowercase" then .lower
  else if textTransform = "capitalize" then .title
  else .original

/-- `parseTextStyle(styles)` of style-parser.ts. -/
def parseTextStyle (styles : Style) : TextStyle :=
  { fontFamily := parseFontFamily styles.fontFamily
    fontWeight := parseFontWeight styles.fontWeight
    fontStyle := parseFontStyle styles.fontStyle
    fontSize := jsOr (jsParseFloat styles.fontSize) 16
    lineHeight := parseLineHeight styles.lineHeight styles.fontSize
    letterSpacing := parseLetterSpacing styles.letterSpacing styles.fontSize
    textAlign := parseTextAlign styles.textAlign
    textDecoration := parseTextDecoration styles.textDecoration
    textCase := parseTextTransform styles.textTransform
    color := parseColor styles.color none }

/-! ### style-parser.ts : auto layout, visibility, filters -/

/-- `parseJustifyContent(justify)` of style-parser.ts. -/
def parseJustifyContent (justify : String) : PrimaryAlign :=
  if justify = "center" then .center
  else if justify = "flex-end" || justify = "end" then .max
  else if justify = "space-between" || justify = "space-around"
      || justify = "space-evenly" then .spaceBetween
  else .min

/-- `parseAlignItems(align)` of style-parser.ts (`stretch`/`normal`
fall back to `MIN`; the stretch flag is handled by the caller). -/
def parseAlignItems (align : String) : CounterAlign :=
  if align = "center" then .center
  else if align = "flex-end" || align = "end" then .max
  else if align = "baseline" then .baseline
  else .min

/-- `parseGap(gap)` of style-parser.ts. -/
def parseGap (gap : String) : Rat :=
  if gap = "" || gap = "normal" then 0
  else jsOr (jsParseFloat (String.mk ((splitWsRuns gap.data).getD 0 []))) 0

/-- `parseGridJustifyContent(justify)` of style-parser.ts. -/
def parseGridJustifyContent (justify : String) : PrimaryAlign :=
  if justify = "center" then .center
  else if justify = "end" || justify = "flex-end" then .max
  else if justify = "space-between" then .spaceBetween
  else .min

/-- `parseGridAlignItems(align)` of style-parser.ts. -/
def parseGridAlignItems (align : String) : CounterAlign :=
  if align = "center" then .center
  else if align = "end" || align = "flex-end" then .max
  else if align = "baseline" then .baseline
  else .min

/-- The JavaScript `a || b` on numbers: second operand when the first
is zero. -/
def jsOrNum (a b : Rat) : Rat := if a = 0 then b else a

/-- `parseGridAsAutoLayout(styles)` of style-parser.ts. -/
def parseGridAsAutoLayout (styles : Style) : Option AutoLayoutConfig :=
  let columnCount :=
    if styles.gridTemplateColumns ≠ "" && styles.gridTemplateColumns ≠ "none" then
      ((splitWsRuns styles.gridTemplateColumns.data).filter
        (fun v => !v.isEmpty && v ≠ "none".data)).length
    else 1
  let isHorizontal := decide (1 < columnCount)
  let columnGap := jsOr (jsParseFloat styles.columnGap) 0
  let rowGap := jsOr (jsParseFloat styles.rowGap) 0
  let gap := jsOr (jsParseFloat styles.gap) 0
  let itemSpacing := if isHorizontal then jsOrNum columnGap gap else jsOrNum rowGap gap
  some
    { mode := if isHorizontal then .horizontal else .vertical
      primaryAxisAlignItems :=
        parseGridJustifyContent (jsOrS styles.justifyContent styles.justifyItems)
      counterAxisAlignItems :=
        parseGridAlignItems
          (if styles.alignContent ≠ "" && styles.alignContent ≠ "normal"
              && styles.alignContent ≠ "stretch" then styles.alignContent
            else styles.alignItems)
      paddingTop := jsOr (jsParseFloat styles.paddingTop) 0
      paddingRight := jsOr (jsParseFloat styles.paddingRight) 0
      paddingBottom := jsOr (jsParseFloat styles.paddingBottom) 0
      paddingLeft := jsOr (jsParseFloat styles.paddingLeft) 0
      itemSpacing := itemSpacing
      primaryAxisSizingMode := .auto
      counterAxisSizingMode := .auto
      wrap := some isHorizontal
      counterAxisStretch := none }

/-- `parseAutoLayout(styles)` of style-parser.ts. -/
def parseAutoLayout (styles : Style) : Option AutoLayoutConfig :=
  if styles.position = "absolute" || styles.position = "fixed" then none
  else if styles.display = "grid" || styles.display = "inline-grid" then
    parseGridAsAutoLayout styles
  else
    let paddingTop := jsOr (jsParseFloat styles.paddingTop) 0
    let paddingRight := jsOr (jsParseFloat styles.paddingRight) 0
    let paddingBottom := jsOr (jsParseFloat styles.paddingBottom) 0
    let paddingLeft := jsOr (jsParseFloat styles.paddingLeft) 0
    if styles.display = "flex" || styles.display = "inline-flex" then
      let isVertical := styles.flexDirection = "column"
        || styles.flexDirection = "column-reverse"
      let isStretch := styles.alignItems = "stretch"
      some
        { mode := if isVertical then .vertical else .horizontal
          primaryAxisAlignItems := parseJustifyContent styles.justifyContent
          counterAxisAlignItems := parseAlignItems styles.alignItems
          paddingTop := paddingTop
          paddingRight := paddingRight
          paddingBottom := paddingBottom
          paddingLeft := paddingLeft
          itemSpacing := parseGap styles.gap
          primaryAxisSizingMode := .auto
          counterAxisSizingMode := .auto
          wrap := some (styles.flexWrap = "wrap")
          counterAxisStretch := if isStretch then some true else none }
    else if styles.display = "block" || styles.display = "list-item"
        || styles.display = "flow-root" || styles.display = "table"
        || styles.display = "table-row-group" || styles.display = "table-row" then
      some
        { mode := .vertical
          primaryAxisAlignItems := .min
          counterAxisAlignItems := if styles.textAlign = "center" then .center else .min
          paddingTop := paddingTop
          paddingRight := paddingRight
          paddingBottom := paddingBottom
          paddingLeft := paddingLeft
          itemSpacing := 0
          primaryAxisSizingMode := .auto
          counterAxisSizingMode := .auto
          wrap := none
          counterAxisStretch := none }
    else if styles.display = "inline-block" || styles.display = "inline"
        || styles.display = "table-cell" then
      some
        { mode := .horizontal
          primaryAxisAlignItems := .min
          counterAxisAlignItems := .center
          paddingTop := paddingTop
          paddingRight := paddingRight
          paddingBottom := paddingBottom
          paddingLeft := paddingLeft
          itemSpacing := 0
          primaryAxisSizingMode := .auto
          counterAxisSizingMode := .auto
          wrap := none
          counterAxisStretch := none }
    else none

/-- `parseOpacity(styles)` of style-parser.ts: `NaN` becomes `1`. -/
def parseOpacity (styles : Style) : Rat :=
  match jsParseFloat styles.opacity with
  | none => 1
  | some v => v

/-- `isVisible(styles)` of style-parser.ts. -/
def isVisible (styles : Style) : Bool :=
  styles.display ≠ "none" && styles.visibility ≠ "hidden" && 0 < parseOpacity styles

/-- `isAbsolutelyPositioned(styles)` of style-parser.ts. -/
def isAbsolutelyPositioned (styles : Style) : Bool :=
  styles.position = "absolute" || styles.position = "fixed"

/-- One-position matcher for `blur\((\d+(?:\.\d+)?)(px)?\)`, returning
the radius group value. -/
def matchBlurAt (l : List Char) : Option Rat :=
  if prefixL "blur(".data l then do
    let (v, r) ← scanNumGroup (l.drop 5)
    let r2 := if prefixL "px".data r then r.drop 2 else r
    match r2 with
    | ')' :: _ => some v
    | _ => none
  else none

/-- One-position matcher for `drop-shadow\(([^)]+)\)`, returning the
captured group. -/
def matchDropShadowAt (l : List Char) : Option (List Char) :=
  if prefixL "drop-shadow(".data l then
    let body := (l.drop 12).takeWhile (fun c => c ≠ ')')
    let r := (l.drop 12).dropWhile (fun c => c ≠ ')')
    if body.isEmpty then none
    else
      match r with
      | ')' :: _ => some body
      | _ => none
  else none

/-- The drop-shadow part-scan of `parseFilters`: numeric parts collect
into `numbers`, color-looking parts concatenate into `colorStr`. -/
def dropShadowParts (parts : List (List Char)) : List Rat × List Char :=
  parts.foldl
    (fun acc part =>
      match parseFloatL part with
      | some v => (acc.1 ++ [v], acc.2)
      | none =>
        if startsWithL part "rgb".data || startsWithL part "#".data
            || (!part.isEmpty && part.all isAlphaC) then
          (acc.1, acc.2 ++ part)
        else acc)
    ([], [])

/-- `parseFilters(styles)` of style-parser.ts. -/
def parseFilters (styles : Style) : List Effect :=
  let blurFx : List Effect :=
    if styles.filter ≠ "" && styles.filter ≠ "none" then
      match searchPos matchBlurAt styles.filter.data with
      | some radius => [.blur false radius true]
      | none => []
    else []
  let dropFx : List Effect :=
    if styles.filter ≠ "" && styles.filter ≠ "none" then
      match searchPos matchDropShadowAt styles.filter.data with
      | some grp =>
        let shadowStr := trimL grp
        let (numbers, colorStr) := dropShadowParts (splitWsRuns shadowStr)
        let color : RGBA :=
          match searchPos matchRgbaTokenAt shadowStr with
          | some tok => parseColor (String.mk tok) none
          | none =>
            if colorStr.isEmpty then ⟨0, 0, 0, some (q 1 4)⟩
            else parseColor (String.mk colorStr) none
        if 2 ≤ numbers.length then
          [.shadow false color (numbers.getD 0 0) (numbers.getD 1 0) (numbers.getD 2 0) 0 true]
        else []
      | none => []
    else []
  let backdropFx : List Effect :=
    let backdrop := jsOrS styles.backdropFilter styles.webkitBackdropFilter
    if backdrop ≠ "" && backdrop ≠ "none" then
      match searchPos matchBlurAt backdrop.data with
      | some radius => [.blur true radius true]
      | none => []
    else []
  blurFx ++ dropFx ++ backdropFx

/-! ### dom-to-layer.ts : rotation -/

/-- Oracle for the two irrational computations of `parseRotation`
(`value * 180 / Math.PI` and `Math.atan2(b, a) * 180 / Math.PI`).
The engine stores their results without inspecting them; claims never
depend on a concrete value, and every concrete input below uses
`transform: none`, which bypasses the oracle. -/
structure MathOracle where
  radToDeg : Rat → Rat
  atan2Deg : Rat → Rat → Rat

/-- The oracle used to instantiate witnesses (its values are never
reached by the inputs evaluated). -/
def zeroOracle : MathOracle := ⟨fun _ => 0, fun _ _ => 0⟩

/-- One-position matcher for
`rotate\(\s*(-?[\d.]+)(deg|rad|turn)\s*\)`: the `parseFloat` of the
signed group (`none` when the group is dots only) and the unit
(0 = deg, 1 = rad, 2 = turn). -/
def matchRotateAt (l : List Char) : Option (Option Rat × Nat) :=
  if prefixL "rotate(".data l then
    let r0 := (l.drop 7).dropWhile jsIsWs
    let (neg, r1) : Bool × List Char :=
      match r0 with
      | '-' :: r => (true, r)
      | _ => (false, r0)
    let run := r1.takeWhile (fun c => isDigitC c || c = '.')
    let r2 := r1.dropWhile (fun c => isDigitC c || c = '.')
    if run.isEmpty then none
    else
      let unit : Option (Nat × List Char) :=
        if prefixL "deg".data r2 then some (0, r2.drop 3)
        else if prefixL "rad".data r2 then some (1, r2.drop 3)
        else if prefixL "turn".data r2 then some (2, r2.drop 4)
        else none
      match unit with
      | none => none
      | some (u, r3) =>
        match r3.dropWhile jsIsWs with
        | ')' :: _ =>
          some (parseFloatL (if neg then '-' :: run else run), u)
        | _ => none
  else none

/-- One-position matcher for
`matrix\(\s*(-?[\d.]+)\s*,\s*(-?[\d.]+)` (no closing parenthesis in the
source pattern), returning the `parseFloat`s of the two groups. -/
def matchMatrixAt (l : List Char) : Option (Option Rat × Option Rat) :=
  if prefixL "matrix(".data l then
    let r0 := (l.drop 7).dropWhile jsIsWs
    let (neg1, r1) : Bool × List Char :=
      match r0 with
      | '-' :: r => (true, r)
      | _ => (false, r0)
    let run1 := r1.takeWhile (fun c => isDigitC c || c = '.')
    let r2 := r1.dropWhile (fun c => isDigitC c || c = '.')
    if run1.isEmpty then none
    else
      match r2.dropWhile jsIsWs with
      | ',' :: r3 =>
        let r4 := r3.dropWhile jsIsWs
        let (neg2, r5) : Bool × List Char :=
          match r4 with
          | '-' :: r => (true, r)
          | _ => (false, r4)
        let run2 := r5.takeWhile (fun c => isDigitC c || c = '.')
        if run2.isEmpty then none
        else
          some (parseFloatL (if neg1 then '-' :: run1 else run1),
            parseFloatL (if neg2 then '-' :: run2 else run2))
      | _ => none
  else none

/-- `parseRotation(transform)` of dom-to-layer.ts.  A zero angle (and a
`NaN` group) is falsy and becomes `undefined`; a matrix angle within
0.01 degrees of zero is treated as no rotation. -/
def parseRotation (o : MathOracle) (transform : String) : Option Rat :=
  if transform = "" || transform = "none" then none
  else
    match searchPos matchRotateAt transform.data with
    | some (v, unit) =>
      match v with
      | none => none
      | some value =>
        if unit = 0 then (if value = 0 then none else some value)
        else if unit = 1 then
          let r := o.radToDeg value
          if r = 0 then none else some r
        else
          let r := qmul value 360
          if r = 0 then none else some r
    | none =>
      match searchPos matchMatrixAt transform.data with
      | some (va, vb) =>
        match va, vb with
        | some a, some b =>
          let angle := o.atan2Deg b a
          if q 1 100 < qabs angle then some angle else none
        | _, _ => none
      | none => none

/-! ### dom-to-layer.ts : the DOM snapshot model

A node of the captured DOM.  Everything the browser would answer for an
element is a field of `ElemData`:

* `styles` is the `getComputedStyle(element)` map;
* `rect` is `getBoundingClientRect()` (absolute coordinates);
* `innerText` is the browser-rendered text (`<br>` already turned into
  newlines, pseudo-element text included), used by
  `getDirectTextContent`;
* `beforeStyle`/`afterStyle` are `getComputedStyle(element, '::before' |
  '::after')`; `none` stands for a pseudo-element whose `content` is
  `none`, which the source skips identically;
* `beforeRaster`/`afterRaster` are the data-URLs produced by the
  out-of-process canvas rasterization of an icon-font glyph — `none`
  when the canvas stayed blank or was unavailable, making the source
  fall through to its text path;
* `attrWidth`/`attrHeight`/`outerHTML` feed `sanitizeSvg`;
* `imgSrc` is `HTMLImageElement.src`, `inputType` is
  `HTMLInputElement.type`;
* text nodes carry the rectangle that `Range.getBoundingClientRect()`
  measures for them. -/
structure Rect where
  left : Rat := 0
  top : Rat := 0
  width : Rat := 0
  height : Rat := 0
deriving DecidableEq, Repr

/-- The per-element part of a DOM snapshot node (see the section
comment above). -/
structure ElemData where
  tagName : String := ""
  id : String := ""
  classList : List String := []
  classAttr : Option String := none
  ariaLabel : Option String := none
  inputType : String := ""
  imgSrc : String := ""
  innerText : String := ""
  attrWidth : Option String := none
  attrHeight : Option String := none
  outerHTML : String := ""
  styles : Style := {}
  beforeStyle : Option Style := none
  afterStyle : Option Style := none
  beforeRaster : Option String := none
  afterRaster : Option String := none
  rect : Rect := {}
deriving Repr

/-- A DOM node: an element with its child nodes, or a text node with
its measured rectangle. -/
inductive DomNode where
  | elem (d : ElemData) (kids : List DomNode)
  | text (content : String) (rect : Rect)
deriving Repr

/-- `element.children`: the element child nodes, in order. -/
def elemChildren (kids : List DomNode) : List (ElemData × List DomNode) :=
  kids.filterMap (fun k =>
    match k with
    | .elem d ks => some (d, ks)
    | .text _ _ => none)

mutual

/-- `Node.textContent` of an element's subtree: concatenation of all
descendant text nodes. -/
def nodeTextContent : DomNode → String
  | .text s _ => s
  | .elem _ kids => kidsTextContent kids
termination_by structural x => x

/-- `Node.textContent` over a node list. -/
def kidsTextContent : List DomNode → String
  | [] => ""
  | k :: ks => nodeTextContent k ++ kidsTextContent ks
termination_by structural x => x

end

/-! ### dom-to-layer.ts : the LayerMeta model -/

/-- `LayerType` of layer-meta.ts. -/
inductive LayerType where
  | frame
  | text
  | rectangle
  | ellipse
  | group
deriving DecidableEq, Repr

/-- `sourceElement` debug metadata of `LayerMeta`. -/
structure SourceElement where
  tagName : String
  id : Option String := none
  className : Option String := none
deriving DecidableEq, Repr

/-- `TextSegment` of layer-meta.ts.  `endOff` is the source's `end`
field (a Lean keyword).  `fontWeight`/`fontSize` store the raw
`parseInt`/`parseFloat` results, which can be `NaN`. -/
structure TextSegment where
  text : String
  start : Nat
  endOff : Nat
  color : Option RGBA := none
  fontWeight : Option JsNum := none
  fontStyle : Option FontStyleV := none
  fontSize : Option JsNum := none
  textDecoration : Option TextDecorationV := none
deriving DecidableEq, Repr

/-- The non-recursive fields of `LayerMeta`. -/
structure LayerData where
  type : LayerType
  name : String
  x : Rat
  y : Rat
  width : Rat
  height : Rat
  fills : List Paint
  strokes : Option StrokeConfig
  effects : List Effect
  cornerRadius : CornerRadiusV
  opacity : Rat
  visible : Bool
  clipsContent : Bool
  characters : Option String := none
  textStyles : Option TextStyle := none
  textSegments : Option (List TextSegment) := none
  autoLayout : Option AutoLayoutConfig := none
  isAbsolutelyPositioned : Option Bool := none
  zIndex : Option Rat := none
  flexGrow : Option Rat := none
  rotation : Option Rat := none
  imageUrl : Option String := none
  svgString : Option String := none
  sourceElement : Option SourceElement := none
deriving DecidableEq, Repr

/-- `LayerMeta` of layer-meta.ts: the data of the node and its owned
children. -/
inductive LayerMeta where
  | node (data : LayerData) (children : List LayerMeta)
deriving Repr

/-- The field part of a layer. -/
def LayerMeta.data : LayerMeta → LayerData
  | .node d _ => d

/-- The children of a layer. -/
def LayerMeta.children : LayerMeta → List LayerMeta
  | .node _ c => c

mutual

/-- Structural equality of layers (used only to state concrete
results). -/
def layerEqb : LayerMeta → LayerMeta → Bool
  | .node d c, .node d2 c2 => d = d2 && layersEqb c c2
termination_by structural x => x

/-- Structural equality of layer lists. -/
def layersEqb : List LayerMeta → List LayerMeta → Bool
  | [], [] => true
  | x :: xs, y :: ys => layerEqb x y && layersEqb xs ys
  | _, _ => false
termination_by structural x => x

end

mutual

/-- Does every node of the layer tree have `visible = true`? -/
def allVisible : LayerMeta → Bool
  | .node d c => d.visible && allVisibleList c
termination_by structural x => x

/-- `allVisible` over a child list. -/
def allVisibleList : List LayerMeta → Bool
  | [] => true
  | x :: xs => allVisible x && allVisibleList xs
termination_by structural x => x

end

/-! ### dom-to-layer.ts : options and classification helpers -/

/-- `ConversionOptions` of dom-to-layer.ts. -/
structure ConversionOptions where
  includeHidden : Option Bool := none
  maxDepth : Option Nat := none
  rootOffset : Option (Rat × Rat) := none
  captureImages : Option Bool := none
deriving DecidableEq, Repr

/-- The merged `Required<ConversionOptions>` shape. -/
structure ReqOptions where
  includeHidden : Bool
  maxDepth : Nat
  rootOffsetX : Rat
  rootOffsetY : Rat
  captureImages : Bool
deriving DecidableEq, Repr

/-- `DEFAULT_OPTIONS` of dom-to-layer.ts. -/
def DEFAULT_OPTIONS : ReqOptions :=
  { includeHidden := false, maxDepth := 50, rootOffsetX := 0, rootOffsetY := 0
    captureImages := true }

/-- `{ ...DEFAULT_OPTIONS, ...options }`. -/
def mergeOptions (options : ConversionOptions) : ReqOptions :=
  { includeHidden := options.includeHidden.getD DEFAULT_OPTIONS.includeHidden
    maxDepth := options.maxDepth.getD DEFAULT_OPTIONS.maxDepth
    rootOffsetX := (options.rootOffset.getD (0, 0)).1
    rootOffsetY := (options.rootOffset.getD (0, 0)).2
    captureImages := options.captureImages.getD DEFAULT_OPTIONS.captureImages }

/-- `isNonVisualElement(tagName)` of dom-to-layer.ts.  The list entry
`clipPath` is compared against an already lower-cased tag name and can
therefore never match; it is kept exactly as in the source. -/
def isNonVisualElement (tagName : String) : Bool :=
  ["script", "style", "link", "meta", "head", "title", "noscript", "template",
    "slot", "br", "wbr", "defs", "clipPath", "mask", "symbol", "use",
    "colgroup", "col"].contains tagName

/-- `isTextElement(tagName)` of dom-to-layer.ts (`i` deliberately
excluded by the source). -/
def isTextElement (tagName : String) : Bool :=
  ["p", "span", "h1", "h2", "h3", "h4", "h5", "h6", "a", "label", "strong",
    "em", "b", "u", "small", "mark", "del", "ins", "sub", "sup", "code",
    "pre", "blockquote", "cite", "q", "button", "li", "dt", "dd"].contains tagName

/-- `isTextOnlyElement(element)` of dom-to-layer.ts. -/
def isTextOnlyElement (kids : List DomNode) : Bool :=
  if !(elemChildren kids).isEmpty then false
  else !(trimL (kidsTextContent kids).data).isEmpty

/-- The block-level display test of `determineLayerType`. -/
def isBlockDisplay (display : String) : Bool :=
  display = "block" || display = "flex" || display = "grid" || display = "table"
    || display = "list-item"

/-- `determineLayerType(element, styles)` of dom-to-layer.ts. -/
def determineLayerType (d : ElemData) (kids : List DomNode) (styles : Style) : LayerType :=
  let tagName := String.mk (lowerL d.tagName.data)
  if tagName = "img" then .rectangle
  else if tagName = "svg" then .frame
  else if tagName = "circle" || tagName = "ellipse" then .ellipse
  else if tagName = "rect" then .rectangle
  else if tagName = "path" || tagName = "polygon" || tagName = "polyline"
      || tagName = "line" then .frame
  else if tagName = "g" then .group
  else if tagName = "table" || tagName = "thead" || tagName = "tbody"
      || tagName = "tfoot" || tagName = "tr" then .frame
  else if tagName = "caption" then .frame
  else if (styles.borderRadius = "50%" || styles.borderRadius = "9999px")
      && qabs (qsub d.rect.width d.rect.height) < 2 then .ellipse
  else
    let hasBackground := styles.backgroundColor ≠ ""
      && styles.backgroundColor ≠ "transparent"
      && styles.backgroundColor ≠ "rgba(0, 0, 0, 0)"
    if !hasBackground && (isTextElement tagName || isTextOnlyElement kids) then
      let hasBlockChildren := (elemChildren kids).any
        (fun ck => isBlockDisplay ck.1.styles.display)
      if hasBlockChildren then .frame
      else
        let pt := jsOr (jsParseFloat styles.paddingTop) 0
        let pr := jsOr (jsParseFloat styles.paddingRight) 0
        let pb := jsOr (jsParseFloat styles.paddingBottom) 0
        let pl := jsOr (jsParseFloat styles.paddingLeft) 0
        if 2 < pt || 2 < pr || 2 < pb || 2 < pl then .frame
        else
          let hasRealTextNodes := kids.any (fun k =>
            match k with
            | .text s _ => !(trimL s.data).isEmpty
            | .elem _ _ => false)
          if isTextElement tagName || hasRealTextNodes then .text
          else .frame
    else .frame

/-- `generateLayerName(element)` of dom-to-layer.ts. -/
def generateLayerName (d : ElemData) (kids : List DomNode) : String :=
  let tagName := String.mk (lowerL d.tagName.data)
  if d.id ≠ "" then tagName ++ "#" ++ d.id
  else
    match d.classList with
    | c :: _ => tagName ++ "." ++ c
    | [] =>
      let aria := match d.ariaLabel with
        | some l => if l ≠ "" then some l else none
        | none => none
      match aria with
      | some l => String.mk (l.data.take 30)
      | none =>
        let txt := trimL (kidsTextContent kids).data
        if !txt.isEmpty then
          String.mk (txt.take 20) ++ (if 20 < txt.length then "..." else "")
        else tagName

/-- A `slice(0, 20)` text preview with ellipsis, as used for synthesized
text-child names. -/
def textPreviewName (s : String) : String :=
  String.mk (s.data.take 20) ++ (if 20 < s.data.length then "..." else "")

/-- `getDirectTextContent(element)` of dom-to-layer.ts: the trimmed
`innerText` of the live element. -/
def getDirectTextContent (d : ElemData) : String :=
  String.mk (trimL d.innerText.data)

/-- `getDirectTextNodesOnly(element)` of dom-to-layer.ts. -/
def getDirectTextNodesOnly (kids : List DomNode) : String :=
  let raw := kids.foldl (fun acc k =>
    match k with
    | DomNode.text s _ => acc ++ s
    | DomNode.elem _ _ => acc) ""
  String.mk (trimL raw.data)

/-! ### dom-to-layer.ts : text segments, svg, pseudo-elements -/

/-- One step of `captureTextSegments`: the text and the five style
strings of one child node (text nodes inherit the parent's strings). -/
def segmentText (parent : Style) (k : DomNode) : Option (String × Style) :=
  match k with
  | .text s _ => some (s, parent)
  | .elem ed _ =>
    if String.mk (lowerL ed.tagName.data) = "br" then none
    else some (nodeTextContent (.elem ed []), ed.styles)

/-- `captureTextSegments(element)` of dom-to-layer.ts. -/
def captureTextSegments (d : ElemData) (kids : List DomNode) : Option (List TextSegment) :=
  if (elemChildren kids).isEmpty then none
  else
    let ps := d.styles
    let parentColor := ps.color
    let parentWeight := ps.fontWeight
    let parentFontStyle := ps.fontStyle
    let parentFontSize := ps.fontSize
    let parentTextDecoration := jsOrS ps.textDecorationLine ps.textDecoration
    let step := fun (acc : Nat × List TextSegment) (k : DomNode) =>
      let (offset, segs) := acc
      match k with
      | DomNode.elem ed edKids =>
        if String.mk (lowerL ed.tagName.data) = "br" then (offset + 1, segs)
        else
          let text := kidsTextContent edKids
          let cs := ed.styles
          let childColor := cs.color
          let childWeight := cs.fontWeight
          let childFontStyle := cs.fontStyle
          let childFontSize := cs.fontSize
          let childTextDecoration := jsOrS cs.textDecorationLine cs.textDecoration
          if text.data.length = 0 then (offset, segs)
          else
            let isDifferent := childColor ≠ parentColor || childWeight ≠ parentWeight
              || childFontStyle ≠ parentFontStyle || childFontSize ≠ parentFontSize
              || childTextDecoration ≠ parentTextDecoration
            if isDifferent then
              let seg : TextSegment :=
                { text := text, start := offset, endOff := offset + text.data.length
                  color := if childColor ≠ parentColor then
                      some (parseColor childColor none) else none
                  fontWeight := if childWeight ≠ parentWeight then
                      some (jsParseInt childWeight) else none
                  fontStyle := if childFontStyle ≠ parentFontStyle then
                      some (if childFontStyle = "italic" then .italic else .normal)
                    else none
                  fontSize := if childFontSize ≠ parentFontSize then
                      some (jsParseFloat childFontSize) else none
                  textDecoration := if childTextDecoration ≠ parentTextDecoration then
                      some
                        (if containsL childTextDecoration.data "underline".data then
                          TextDecorationV.underline
                        else if containsL childTextDecoration.data "line-through".data then
                          TextDecorationV.strikethrough
                        else TextDecorationV.noDeco)
                    else none }
              (offset + text.data.length, segs ++ [seg])
            else (offset + text.data.length, segs)
      | DomNode.text s _ =>
        if s.data.length = 0 then (offset, segs)
        else (offset + s.data.length, segs)
    let segments := (kids.foldl step (0, [])).2
    if segments.isEmpty then none else some segments

/-- Case-insensitive global replace of `currentColor`
(`/currentColor/gi`), fuel-structured on the input length. -/
def replaceCurrentColorGo : Nat → List Char → List Char → List Char
  | 0, _, _ => []
  | fuel + 1, l, repl =>
    match l with
    | [] => []
    | c :: rest =>
      if prefixL "currentcolor".data (lowerL l) then
        repl ++ replaceCurrentColorGo fuel (l.drop 12) repl
      else c :: replaceCurrentColorGo fuel rest repl

/-- Decimal rendering of the rational sizes interpolated into the svg
string.  Integral values print as JavaScript would; a non-integral
measurement falls back to `num/den` (the claims never inspect this
payload and the float formatting of JavaScript is not replicated). -/
def ratToString (x : Rat) : String :=
  if x.den = 1 then toString x.num else toString x.num ++ "/" ++ toString x.den

/-- `sanitizeSvg(svg, styles)` of dom-to-layer.ts.  The `try`/`catch`
has nothing to throw in the model, so the `null` branch is unreachable
and the sanitized string is always produced. -/
def sanitizeSvg (d : ElemData) (styles : Style) : String :=
  let svgStr := d.outerHTML.data
  let s1 := replaceCurrentColorGo (svgStr.length + 1) svgStr styles.color.data
  let rect := d.rect
  let widthMissing := match d.attrWidth with
    | none => true
    | some w => w = ""
  let s2 := if widthMissing then
      replaceFirstL s1 "<svg".data ("<svg width=\"".data ++ (ratToString rect.width).data ++ ['"'])
    else s1
  let heightMissing := match d.attrHeight with
    | none => true
    | some h => h = ""
  let s3 := if heightMissing then
      replaceFirstL s2 "<svg".data ("<svg height=\"".data ++ (ratToString rect.height).data ++ ['"'])
    else s2
  let s4 := if !containsL s3 "xmlns=".data then
      replaceFirstL s3 "<svg".data "<svg xmlns=\"http://www.w3.org/2000/svg\"".data
    else s3
  String.mk s4

/-- The quote-stripping of the pseudo-element `content` value
(`content.replace(/^["']|["']$/g, '')`). -/
def stripContentQuotes (l : List Char) : List Char :=
  let quote : Char → Bool := fun c => c = '"' || c = Char.ofNat 39
  let l1 := match l with
    | c :: r => if quote c then r else l
    | [] => l
  match l1.reverse with
  | c :: r => if quote c then r.reverse else l1
  | [] => l1

/-- The CSS unicode-escape decoding
(`replace(/\\([0-9a-fA-F]{1,6})\s?/g, fromCodePoint)`); an escape whose
code point is not a valid scalar value decodes to `Char.ofNat`'s
default (the source would throw a `RangeError` there — no icon font
uses such an escape).  Fuel-structured on the input length. -/
def decodeUnicodeEscapesGo : Nat → List Char → List Char
  | 0, _ => []
  | fuel + 1, l =>
    match l with
    | [] => []
    | '\\' :: rest =>
      let hx := (rest.takeWhile isHexC).take 6
      if hx.isEmpty then '\\' :: decodeUnicodeEscapesGo fuel rest
      else
        let r1 := rest.drop hx.length
        let r2 := match r1 with
          | c :: r => if jsIsWs c then r else r1
          | [] => r1
        Char.ofNat (hexToNat hx) :: decodeUnicodeEscapesGo fuel r2
    | c :: rest => c :: decodeUnicodeEscapesGo fuel rest

/-- `capturePseudoElement(element, pseudo, parentRect)` of
dom-to-layer.ts.  `pseudo` is the selector text, `styles` the computed
pseudo-element style, `iconRaster` the canvas rasterization oracle and
`elemRect` the element's own bounding rectangle (`parentRect` is unused
in the source body as well). -/
def capturePseudoElement (pseudo : String) (styles : Style) (iconRaster : Option String)
    (elemRect : Rect) : Option LayerMeta :=
  let content := styles.content
  let sq := Char.ofNat 39
  if content = "" || content = "none" || content = "normal"
      || content = "\"\"" || content = String.mk [sq, sq] then none
  else if styles.display = "none" || styles.visibility = "hidden" then none
  else
    let t0 := stripContentQuotes content.data
    let textContent := decodeUnicodeEscapesGo (t0.length + 1) t0
    let isTextContent := !textContent.isEmpty && !startsWithL content.data "url(".data
    let fontFamily := styles.fontFamily
    let isIconFont := isTextContent &&
      (containsL fontFamily.data "Font Awesome".data
        || containsL fontFamily.data "Material".data
        || containsL fontFamily.data "icon".data
        || containsL fontFamily.data "Icon".data)
    let name := String.mk (replaceFirstL pseudo.data "::".data [])
    let rasterNode : Option LayerMeta :=
      if isIconFont && !textContent.isEmpty then
        match iconRaster with
        | some dataUrl =>
          let fontSize := jsOr (jsParseFloat styles.fontSize) 16
          let iconWidth := jsOrNum elemRect.width fontSize
          let iconHeight := jsOrNum elemRect.height fontSize
          some (.node
            { type := .rectangle, name := name, x := 0, y := 0
              width := iconWidth, height := iconHeight
              fills := [.image dataUrl .fill 1 true]
              strokes := none, effects := [], cornerRadius := .uniform 0
              opacity := parseOpacity styles, visible := true, clipsContent := false
              sourceElement := some ⟨pseudo, none, none⟩ } [])
        | none => none
      else none
    match rasterNode with
    | some n => some n
    | none =>
      let fills := parseBackground styles
      let strokes := parseBorder styles
      let effects := parseBoxShadow styles
      let cornerRadius := parseBorderRadius styles
      let opacity := parseOpacity styles
      let width := jsOr (jsParseFloat styles.width) 0
      let height := jsOr (jsParseFloat styles.height) 0
      if width = 0 && height = 0 && !isTextContent && fills.isEmpty then none
      else
        let base : LayerData :=
          { type := if isTextContent then .text else .frame
            name := name
            x := jsOr (jsParseFloat styles.left) 0
            y := jsOr (jsParseFloat styles.top) 0
            width := jsOrNum width (if isTextContent then 100 else 20)
            height := jsOrNum height 20
            fills := fills, strokes := strokes, effects := effects
            cornerRadius := cornerRadius, opacity := opacity
            visible := true, clipsContent := false
            characters := if isTextContent then some (String.mk textContent) else none
            textStyles := if isTextContent then some (parseTextStyle styles) else none
            isAbsolutelyPositioned :=
              if styles.position = "absolute" || styles.position = "fixed" then some true
              else none
            sourceElement := some ⟨pseudo, none, none⟩ }
        some (.node base [])

/-! ### dom-to-layer.ts : child assembly stages of `convertElement` -/

/-- The first pass over `element.children` detecting fixed/sticky
children near the top (`childRect.top < 100`) and taking the maximum of
their heights. -/
def fixedTopHeight (kids : List DomNode) : Rat :=
  (elemChildren kids).foldl
    (fun acc ck =>
      if (ck.1.styles.position = "fixed" || ck.1.styles.position = "sticky")
          && ck.1.rect.top < 100 then
        jsMax acc ck.1.rect.height
      else acc)
    0

/-- Replace the `y` of a converted child. -/
def withY (c : LayerMeta) (v : Rat) : LayerMeta :=
  .node { c.data with y := v } c.children

/-- The per-child rebase against a fixed/sticky header of
`convertElement`: non-absolute children whose `y` is within 20 units of
the header height snap to `0`; children strictly below shift up. -/
def adjustForFixedTop (fth : Rat) (c : LayerMeta) : LayerMeta :=
  if c.data.isAbsolutelyPositioned ≠ some true && 0 < fth then
    if qabs (qsub c.data.y fth) < 20 then withY c 0
    else if fth < c.data.y then withY c (qsub c.data.y fth)
    else c
  else c

/-- The measured rectangle of the first direct text node with nonempty
trimmed content (`Range.getBoundingClientRect` in the source). -/
def firstTextNodeRect (kids : List DomNode) : Option Rect :=
  kids.findSome? (fun k =>
    match k with
    | DomNode.text s r => if !(trimL s.data).isEmpty then some r else none
    | DomNode.elem _ _ => none)

/-- The synthesized-text-child stage of `convertElement` (the block
guarded by `if (directText)`): may override the frame's auto layout for
text-only frames and appends one TEXT child carrying the direct text. -/
def synthesizeTextChild (base : LayerData) (d : ElemData) (kids : List DomNode)
    (styles : Style) (rect : Rect) (children : List LayerMeta) :
    LayerData × List LayerMeta :=
  let directText := if children.isEmpty then getDirectTextContent d
    else getDirectTextNodesOnly kids
  if directText = "" then (base, children)
  else
    let paddingTop := jsOr (jsParseFloat styles.paddingTop) 0
    let paddingRight := jsOr (jsParseFloat styles.paddingRight) 0
    let paddingBottom := jsOr (jsParseFloat styles.paddingBottom) 0
    let paddingLeft := jsOr (jsParseFloat styles.paddingLeft) 0
    let contentWidth := qsub (qsub rect.width paddingLeft) paddingRight
    let contentHeight := qsub (qsub rect.height paddingTop) paddingBottom
    let isTextOnly := children.isEmpty || children.all (fun c =>
      match c.data.sourceElement with
      | some se => se.tagName = "::before" || se.tagName = "::after"
      | none => false)
    let base :=
      if isTextOnly then
        let primaryAlign : PrimaryAlign :=
          if styles.textAlign = "center" then .center
          else if styles.textAlign = "right" then .max
          else .min
        let existingAL := base.autoLayout
        let alPT := match existingAL with
          | some al => al.paddingTop
          | none => paddingTop
        let alPR := match existingAL with
          | some al => al.paddingRight
          | none => paddingRight
        let alPB := match existingAL with
          | some al => al.paddingBottom
          | none => paddingBottom
        let alPL := match existingAL with
          | some al => al.paddingLeft
          | none => paddingLeft
        { base with autoLayout := some {
            mode := .horizontal
            primaryAxisAlignItems := primaryAlign
            counterAxisAlignItems := .center
            paddingTop := alPT
            paddingRight := alPR
            paddingBottom := alPB
            paddingLeft := alPL
            itemSpacing := 0
            primaryAxisSizingMode := .fixed
            counterAxisSizingMode := .fixed
            wrap := none
            counterAxisStretch := none } }
      else base
    let (textWidth, textHeight, textX, textY) : Rat × Rat × Rat × Rat :=
      if isTextOnly then (contentWidth, contentHeight, 0, 0)
      else
        match firstTextNodeRect kids with
        | some tr =>
          (jsOrNum tr.width contentWidth, jsOrNum tr.height contentHeight,
            qsub (qsub tr.left rect.left) paddingLeft,
            qsub (qsub tr.top rect.top) paddingTop)
        | none => (contentWidth, contentHeight, 0, 0)
    let textChild : LayerMeta := .node
      { type := .text
        name := textPreviewName directText
        x := textX, y := textY
        width := jsMax 1 textWidth, height := jsMax 1 textHeight
        fills := [], strokes := none
        effects := parseTextShadow styles
        cornerRadius := .uniform 0, opacity := 1, visible := true, clipsContent := false
        characters := some directText
        textStyles := some (parseTextStyle styles)
        textSegments := if isTextOnly then captureTextSegments d kids else none } []
    (base, children ++ [textChild])

/-- The resolved z-index of a converted child (`zIndex || 0`). -/
def resolvedZ (c : LayerMeta) : Rat := jsOr c.data.zIndex 0

/-- The z-index sort of `convertElement`
(`children.sort((a, b) => (a.zIndex || 0) - (b.zIndex || 0))`):
a stable ascending sort by resolved z-index, which pins down the result
of the JavaScript sort (stable since ES2019) uniquely. -/
def sortChildrenByZ (children : List LayerMeta) : List LayerMeta :=
  List.insertionSort (fun a b => resolvedZ a ≤ resolvedZ b) children

/-- The pairwise gaps between consecutive flow children along the
primary axis (`Math.round(Math.max(0, gap))` each). -/
def pairGaps (isVertical : Bool) (flow : List LayerMeta) : List Rat :=
  (flow.zip flow.tail).map (fun p =>
    jsRound (jsMax 0
      (if isVertical then qsub p.2.data.y (qadd p.1.data.y p.1.data.height)
        else qsub p.2.data.x (qadd p.1.data.x p.1.data.width))))

/-- Is a converted child a flow child
(`!c.isAbsolutelyPositioned` in the filters of `convertElement`)? -/
def isFlowChild (c : LayerMeta) : Bool := c.data.isAbsolutelyPositioned ≠ some true

/-- The wrapper frame synthesized for a flow child whose trailing gap
exceeds the minimum: same footprint plus the excess as trailing
padding, the child re-homed at the origin. -/
def wrapChild (al : AutoLayoutConfig) (isVertical : Bool) (extraGap : Rat)
    (child : LayerMeta) : LayerMeta :=
  .node
    { type := .frame
      name := child.data.name
      x := child.data.x, y := child.data.y
      width := child.data.width
      height := qadd child.data.height (if isVertical then extraGap else 0)
      fills := [], strokes := none, effects := []
      cornerRadius := .uniform 0, opacity := 1, visible := true, clipsContent := false
      autoLayout := some
        { mode := if isVertical then .vertical else .horizontal
          primaryAxisAlignItems := .min
          counterAxisAlignItems := al.counterAxisAlignItems
          paddingTop := 0
          paddingRight := if isVertical then 0 else extraGap
          paddingBottom := if isVertical then extraGap else 0
          paddingLeft := 0
          itemSpacing := 0
          primaryAxisSizingMode := .auto
          counterAxisSizingMode := .auto
          wrap := none
          counterAxisStretch := none } }
    [.node { child.data with x := 0, y := 0 } child.children]

/-- The uneven-gap wrapping pass: walks `children`, counting flow
children; the i-th flow child is wrapped when its trailing gap
`gaps[i]` exceeds `minGap + 4`. -/
def wrapUneven (al : AutoLayoutConfig) (isVertical : Bool) (minGap : Rat)
    (gaps : List Rat) : List LayerMeta → Nat → List LayerMeta
  | [], _ => []
  | c :: rest, fi =>
    if isFlowChild c then
      let c2 :=
        if fi < gaps.length && qadd minGap 4 < gaps.getD fi 0 then
          wrapChild al isVertical (qsub (gaps.getD fi 0) minGap) c
        else c
      c2 :: wrapUneven al isVertical minGap gaps rest (fi + 1)
    else c :: wrapUneven al isVertical minGap gaps rest fi

/-- The gap-inference post-pass of `convertElement` (the block guarded
by `if (layer.autoLayout && children.length >= 2)`). -/
def applyGapInference (base : LayerData) (styles : Style) (children : List LayerMeta) :
    LayerData × List LayerMeta :=
  match base.autoLayout with
  | none => (base, children)
  | some al =>
    if 2 ≤ children.length then
      let flowChildren := children.filter isFlowChild
      if 2 ≤ flowChildren.length then
        let isVertical := al.mode = .vertical
        let gaps := pairGaps isVertical flowChildren
        if gaps.isEmpty then (base, children)
        else
          let display := styles.display
          let isFlexOrGrid := display = "flex" || display = "inline-flex"
            || display = "grid" || display = "inline-grid"
          let total := gaps.foldl qadd 0
          let avgGap := jsRound (qdiv total (mkRat (gaps.length : Nat) 1))
          if isFlexOrGrid then
            let cssGap := al.itemSpacing
            if 4 < qabs (qsub avgGap cssGap) then
              ({ base with autoLayout := some { al with itemSpacing := avgGap } }, children)
            else (base, children)
          else
            let minGap := gaps.foldl jsMin (gaps.getD 0 0)
            let maxGap := gaps.foldl jsMax (gaps.getD 0 0)
            if qsub maxGap minGap ≤ 4 then
              ({ base with autoLayout := some { al with itemSpacing := avgGap } }, children)
            else
              let al2 := { al with itemSpacing := minGap }
              ({ base with autoLayout := some al2 },
                wrapUneven al2 isVertical minGap gaps children 0)
      else (base, children)
    else (base, children)

/-- The cross-axis centering detection of `convertElement` (vertical
auto-layouts only).  The strict-majority test `centeredCount >
nonFullWidthChildren / 2` is the integer inequality
`nonFull < 2 * centered`. -/
def applyCenterDetection (base : LayerData) (children : List LayerMeta) : LayerData :=
  match base.autoLayout with
  | none => base
  | some al =>
    if al.mode = .vertical then
      let flowChildren := children.filter isFlowChild
      if !flowChildren.isEmpty then
        let pLeft := al.paddingLeft
        let pRight := al.paddingRight
        let contentWidth := qsub (qsub base.width pLeft) pRight
        let counts := flowChildren.foldl
          (fun (acc : Nat × Nat) c =>
            if 0 < contentWidth && c.data.width < qsub contentWidth 2 then
              let expectedCenterX := qadd pLeft (qdiv (qsub contentWidth c.data.width) (q 2 1))
              if qabs (qsub c.data.x expectedCenterX) < 8 then (acc.1 + 1, acc.2)
              else acc
            else (acc.1, acc.2 + 1))
          (0, 0)
        let centeredCount := counts.1
        let fullWidthCount := counts.2
        let nonFullWidth := flowChildren.length - fullWidthCount
        if 0 < nonFullWidth && nonFullWidth < 2 * centeredCount then
          { base with autoLayout := some { al with counterAxisAlignItems := .center } }
        else base
      else base
    else base

/-- `::before` capture of `convertElement`: the captured node is
prepended before the sorted children. -/
def insertPseudoBefore (d : ElemData) (children : List LayerMeta) : List LayerMeta :=
  match d.beforeStyle with
  | some st =>
    match capturePseudoElement "::before" st d.beforeRaster d.rect with
    | some b => b :: children
    | none => children
  | none => children

/-- `::after` capture of `convertElement`: the captured node is
appended after the sorted children. -/
def insertPseudoAfter (d : ElemData) (children : List LayerMeta) : List LayerMeta :=
  match d.afterStyle with
  | some st =>
    match capturePseudoElement "::after" st d.afterRaster d.rect with
    | some a => children ++ [a]
    | none => children
  | none => children

/-- The child-assembly tail of `convertElement` for non-TEXT layers,
applied to the already converted element children: text-child
synthesis, the ascending z-index sort, `::before`/`::after` capture
(prepended / appended), gap inference and centering detection, in the
source's order. -/
def assembleFrame (base : LayerData) (d : ElemData) (kids : List DomNode)
    (converted : List LayerMeta) : LayerMeta :=
  let bc := synthesizeTextChild base d kids d.styles d.rect converted
  let children := insertPseudoAfter d (insertPseudoBefore d (sortChildrenByZ bc.2))
  let bc2 := applyGapInference bc.1 d.styles children
  .node (applyCenterDetection bc2.1 bc2.2) bc2.2

/-! ### dom-to-layer.ts : the recursive builder -/

/-- The native checkbox/radio default-styling branch of
`convertElement`. -/
def applyInputDefaults (d : ElemData) (styles : Style) (base : LayerData) : LayerData :=
  if d.tagName = "INPUT" then
    if (d.inputType = "checkbox" || d.inputType = "radio")
        && styles.appearance ≠ "none" && base.fills.isEmpty && base.strokes = none then
      let b := { base with
        fills := [.solid ⟨1, 1, 1, some 1⟩ 1 true]
        strokes := some ⟨⟨q 796 1000, q 835 1000, q 882 1000, some 1⟩, q 3 2, .inside,
          none, none⟩
        cornerRadius :=
          if d.inputType = "radio" then .uniform (qdiv (jsMin base.width base.height) (q 2 1))
          else .uniform 4 }
      let b := if b.width < 16 then { b with width := 20 } else b
      if b.height < 16 then { b with height := 20 } else b
    else base
  else base

/-- The flex-parent max-width expansion of `convertElement`
(`element.parentElement` is the `parentDisplay` input: `none` when the
converted element has no parent). -/
def applyMaxWidthExpansion (styles : Style) (parentDisplay : Option String)
    (base : LayerData) : LayerData :=
  match parentDisplay with
  | none => base
  | some pd =>
    if pd = "flex" || pd = "inline-flex" then
      if styles.maxWidth ≠ "" && styles.maxWidth ≠ "none" then
        match jsParseFloat styles.maxWidth with
        | some maxW =>
          if base.width < maxW && maxW ≤ qmul base.width 3 then { base with width := maxW }
          else base
        | none => base
      else base
    else base

/-- The TEXT-content branch of `convertElement`. -/
def applyTextContent (d : ElemData) (kids : List DomNode) (styles : Style)
    (base : LayerData) : LayerData :=
  let textContent := getDirectTextContent d
  if textContent ≠ "" then
    { base with
      characters := some textContent
      textStyles := some (parseTextStyle styles)
      textSegments := captureTextSegments d kids
      effects := base.effects ++ parseTextShadow styles }
  else base

/-- The `img` branch of `convertElement` (reached when
`options.captureImages` holds). -/
def applyImgFill (d : ElemData) (styles : Style) (base : LayerData) : LayerData :=
  if d.imgSrc ≠ "" then
    let scaleMode : ScaleMode :=
      if styles.objectFit = "cover" then .fill
      else if styles.objectFit = "contain" || styles.objectFit = "scale-down" then .fit
      else if styles.objectFit = "fill" then .crop
      else if styles.objectFit = "none" then .crop
      else .fill
    { base with
      imageUrl := some d.imgSrc
      fills := [.image d.imgSrc scaleMode 1 true] }
  else base

/-- The base layer literal of `convertElement` (the big object
assigned to `layer` right after the null guards). -/
def mkBaseLayer (o : MathOracle) (d : ElemData) (kids : List DomNode)
    (opts : ReqOptions) : LayerData :=
  let styles := d.styles
  let rect := d.rect
  let type := determineLayerType d kids styles
  let isFixed := styles.position = "fixed"
  let isSticky := styles.position = "sticky"
  let isAbsolute := styles.position = "absolute" || isFixed || isSticky
  let zIndex : Rat := match jsParseInt styles.zIndex with
    | none => 0
    | some v => v
  let flexGrow : Option Rat := match jsParseFloat styles.flexGrow with
    | some v => if 0 < v then some v else none
    | none => none
  { type := type
    name := generateLayerName d kids
    x := qsub rect.left opts.rootOffsetX
    y := if isFixed || isSticky then 0 else qsub rect.top opts.rootOffsetY
    width := rect.width, height := rect.height
    fills := parseBackground styles
    strokes := parseBorder styles
    effects := parseBoxShadow styles ++ parseFilters styles
    cornerRadius := parseBorderRadius styles
    opacity := parseOpacity styles
    visible := true
    clipsContent := styles.overflow = "hidden" || styles.overflow = "clip"
    isAbsolutelyPositioned := if isAbsolute then some true else none
    zIndex :=
      if isFixed || isSticky then some (jsMax zIndex 1000)
      else if zIndex ≠ 0 then some zIndex else none
    rotation := parseRotation o styles.transform
    flexGrow := flexGrow
    sourceElement := some
      { tagName := d.tagName
        id := if d.id = "" then none else some d.id
        className := match d.classAttr with
          | some s => if s = "" then none else some s
          | none => none } }

/-- The base layer after the checkbox/radio, flex-max-width and TEXT
content fixups of `convertElement`, in the source's order. -/
def prepareBase (o : MathOracle) (d : ElemData) (kids : List DomNode) (opts : ReqOptions)
    (parentDisplay : Option String) : LayerData :=
  let base := applyMaxWidthExpansion d.styles parentDisplay
    (applyInputDefaults d d.styles (mkBaseLayer o d kids opts))
  if determineLayerType d kids d.styles = .text then applyTextContent d kids d.styles base
  else base

/-- The `parseAutoLayout` assignment of `convertElement`
(`if (autoLayout) layer.autoLayout = autoLayout`). -/
def withAutoLayoutStyle (styles : Style) (base : LayerData) : LayerData :=
  match parseAutoLayout styles with
  | some al => { base with autoLayout := some al }
  | none => base

/-- The tail of `convertElement` past the base fixups: the svg early
return, the img branch, the auto-layout assignment and — for non-TEXT
layers — child assembly. -/
def convertTail (d : ElemData) (kids : List DomNode) (opts : ReqOptions)
    (converted : List LayerMeta) (base : LayerData) : LayerMeta :=
  if String.mk (lowerL d.tagName.data) = "svg" then
    .node { base with svgString := some (sanitizeSvg d d.styles) } []
  else
    let base :=
      if String.mk (lowerL d.tagName.data) = "img" && opts.captureImages then
        applyImgFill d d.styles base
      else base
    let base := withAutoLayoutStyle d.styles base
    if determineLayerType d kids d.styles = .text then .node base []
    else assembleFrame base d kids converted

/-- The body of `convertElement` past its null guards, taking the
already-converted element children (`converted` is consumed only in
the non-TEXT, non-svg tail, exactly as the source only recurses
there): base-layer construction, the checkbox/radio and flex-max-width
fixups, TEXT content, the svg and img branches, auto-layout and child
assembly. -/
def convertCore (o : MathOracle) (d : ElemData) (kids : List DomNode) (opts : ReqOptions)
    (parentDisplay : Option String) (converted : List LayerMeta) : LayerMeta :=
  convertTail d kids opts converted (prepareBase o d kids opts parentDisplay)

/-- `convertElement(element, options, depth)` of dom-to-layer.ts,
structured on the remaining depth budget: the fuel
`options.maxDepth + 1 - depth` is `0` exactly when `depth >
options.maxDepth`, which is the source's first `return null`.  The
recursion over `element.children` happens here (at fuel one lower with
the parent-relative root offset, followed by the fixed-header rebase);
`convertCore` holds everything else. -/
def convertGo : Nat → MathOracle → ElemData → List DomNode → ReqOptions →
    Option String → Option LayerMeta
  | 0, _, _, _, _, _ => none
  | fuel + 1, o, d, kids, opts, parentDisplay =>
    if isNonVisualElement (String.mk (lowerL d.tagName.data)) then none
    else if !opts.includeHidden && !isVisible d.styles then none
    else if d.rect.width = 0 && d.rect.height = 0 then none
    else
      some (convertCore o d kids opts parentDisplay
        ((elemChildren kids).filterMap
          (fun ck =>
            (convertGo fuel o ck.1 ck.2
                { opts with rootOffsetX := d.rect.left, rootOffsetY := d.rect.top }
                (some d.styles.display)).map
              (adjustForFixedTop (fixedTopHeight kids)))))

/-- `convertElement(element, options, depth)` of dom-to-layer.ts. -/
def convertElement (o : MathOracle) (d : ElemData) (kids : List DomNode)
    (opts : ReqOptions) (depth : Nat) (parentDisplay : Option String) : Option LayerMeta :=
  convertGo (opts.maxDepth + 1 - depth) o d kids opts parentDisplay

/-- `domToLayer(element, options)` of dom-to-layer.ts.
`parentDisplay` is the display of `element.parentElement` (an input of
the live-DOM query the source performs). -/
def domToLayer (o : MathOracle) (d : ElemData) (kids : List DomNode)
    (options : ConversionOptions) (parentDisplay : Option String) : Option LayerMeta :=
  convertElement o d kids (mergeOptions options) 0 parentDisplay

/-! ### Predicates and concrete inputs used by the claim theorems -/

/-- Is a paint an Image or Gradient paint (as opposed to a Solid)? -/
def paintIsImageOrGradient : Paint → Bool
  | .solid _ _ _ => false
  | .gradient _ _ _ _ _ => true
  | .image _ _ _ _ => true

/-- Does some branch of `parseColor` other than the final
return-black default recognize the input?  Built from the same
branch conditions `parseColor` tests, in the same order. -/
def parseColorRecognized (s : String) : Bool :=
  s = "currentColor" || s = "inherit" || s = "initial" || s = "unset"
    || s = "transparent" || s = "rgba(0, 0, 0, 0)"
    || (searchPos matchRgbaCommaAt s.data).isSome
    || (searchPos matchRgbaSpaceAt s.data).isSome
    || (searchPos matchHslAt s.data).isSome
    || (hexAnchored s.data).isSome
    || (namedColors (String.mk (lowerL s.data))).isSome

/-- Is a list of rationals non-decreasing (adjacent pairs ordered)? -/
def nonDecreasing : List Rat → Bool
  | [] => true
  | [_] => true
  | a :: b :: r => a ≤ b && nonDecreasing (b :: r)

/-- A style carrying both a gradient background-image and a
background-color (used to witness the trailing-solid contract). -/
def c1Style : Style :=
  { backgroundImage := "linear-gradient(to right, red, blue)", backgroundColor := "red" }

/-- A block-flow leaf child at a given vertical offset (10 units tall,
full container width). -/
def gapChildAt (yv : Rat) : DomNode :=
  DomNode.elem
    { tagName := "DIV", styles := { display := "block" },
      rect := { left := 0, top := yv, width := 100, height := 10 } } []

/-- A block container at the origin, 100 units wide. -/
def gapContainer : ElemData :=
  { tagName := "DIV", styles := { display := "block" },
    rect := { left := 0, top := 0, width := 100, height := 70 } }

/-- Three block siblings at `y = 0/20/40`, each 10 tall: uniform
10-unit gaps. -/
def blockGapUniform : Option LayerMeta :=
  domToLayer zeroOracle gapContainer [gapChildAt 0, gapChildAt 20, gapChildAt 40] {} none

/-- Three block siblings at `y = 0/20/60`, each 10 tall: gaps of 10 and
30. -/
def blockGapUneven : Option LayerMeta :=
  domToLayer zeroOracle gapContainer [gapChildAt 0, gapChildAt 20, gapChildAt 60] {} none

/-- A relatively positioned flow child with `z-index: -5`. -/
def negZChild : DomNode :=
  DomNode.elem
    { tagName := "DIV",
      styles := { display := "block", position := "relative", zIndex := "-5" },
      rect := { left := 0, top := 20, width := 100, height := 10 } } []

/-- A block container with a text `::before` pseudo-element (content
`"x"`, a 10×10 box). -/
def beforeContainer : ElemData :=
  { tagName := "DIV", styles := { display := "block" },
    rect := { left := 0, top := 0, width := 100, height := 40 },
    beforeStyle := some
      { content := "\"x\"", fontFamily := "Arial", width := "10px", height := "10px" } }

/-- The conversion of `beforeContainer` with `negZChild` inside: the
`::before` node is prepended after the z-index sort. -/
def beforeNegZRun : Option LayerMeta :=
  domToLayer zeroOracle beforeContainer [negZChild] {} none

/-- A block-flow child with an explicit z-index, placed at a given
vertical offset. -/
def zChildAt (z : String) (yv : Rat) : DomNode :=
  DomNode.elem
    { tagName := "DIV",
      styles := { display := "block", position := "relative", zIndex := z },
      rect := { left := 0, top := yv, width := 100, height := 10 } } []

/-- Children arriving in z-index order 5, −5, 0 (geometry chosen so the
sorted flow order has uniform gaps and no wrapper is synthesized). -/
def sortPipelineRun : Option LayerMeta :=
  domToLayer zeroOracle gapContainer
    [zChildAt "5" 40, zChildAt "-5" 0, zChildAt "0" 20] {} none

/-- A visible element whose measured box is 0 × 100: zero area but not
zero-by-zero. -/
def zeroWidthEl : ElemData :=
  { tagName := "DIV", styles := { display := "block" },
    rect := { left := 0, top := 0, width := 0, height := 100 } }

/-- A `display: none` child (hidden), 50 units tall. -/
def hiddenChild : DomNode :=
  DomNode.elem
    { tagName := "DIV", styles := { display := "none" },
      rect := { left := 0, top := 0, width := 100, height := 50 } } []

/-- A container holding `hiddenChild` plus a visible sibling. -/
def hiddenContainer : ElemData :=
  { tagName := "DIV", styles := { display := "block" },
    rect := { left := 0, top := 0, width := 100, height := 60 } }

/-- The children of `hiddenContainer`. -/
def hiddenKids : List DomNode :=
  [hiddenChild,
    DomNode.elem
      { tagName := "DIV", styles := { display := "block", opacity := "0" },
        rect := { left := 0, top := 50, width := 100, height := 10 } } []]

/-- Options requesting hidden-element capture. -/
def includeHiddenOpts : ConversionOptions := { includeHidden := some true }

/-- The hidden-capture conversion used to witness the `visible`
invariant. -/
def hiddenCaptureRun : Option LayerMeta :=
  domToLayer zeroOracle hiddenContainer hiddenKids includeHiddenOpts none

/-! ### Supporting lemmas -/

/-- Every paint contributed by a `background-image` entry is an Image
or a Gradient paint. -/
theorem mem_bgEntryFills_imageOrGradient (st : Style) (s : List Char) :
    ∀ p ∈ bgEntryFills st s, paintIsImageOrGradient p = true := by
  intro p hp
  simp only [bgEntryFills] at hp
  split at hp
  · split at hp
    · simp only [List.mem_singleton] at hp
      subst hp
      rfl
    · simp at hp
  · split at hp
    · simp only [List.mem_singleton] at hp
      subst hp
      rfl
    · simp at hp

/-! ### C1 -/

/-- C1: for every computed-style snapshot whose `background-color` is
present and not transparent (the string guard and the parsed-color
guard of the source), `parseBackground` returns a fills array whose
last element is a Solid paint of that background color (resolved with
the element's text color as `currentColor` fallback), and every paint
derived from `background-image` — all of them Image or Gradient paints
— occupies a strictly earlier position; the trailing solid is appended
even when a background-image is present. -/
theorem parseBackground_trailing_solid (st : Style)
    (h1 : st.backgroundColor ≠ "")
    (h2 : isTransparentColorString st.backgroundColor = false)
    (h3 : isTransparent (parseColor st.backgroundColor (some (parseColor st.color none))) = false) :
    ∃ pre,
      parseBackground st =
        pre ++ [Paint.solid (parseColor st.backgroundColor (some (parseColor st.color none))) 1 true]
        ∧ ∀ p ∈ pre, paintIsImageOrGradient p = true := by
  refine ⟨(if st.backgroundImage ≠ "" && st.backgroundImage ≠ "none" then
      (splitBackgroundImages st.backgroundImage.data).flatMap (bgEntryFills st) else []),
    ?_, ?_⟩
  · simp [parseBackground, h1, h2, h3]
  · intro p hp
    split at hp
    · rw [List.mem_flatMap] at hp
      obtain ⟨s, _, hps⟩ := hp
      exact mem_bgEntryFills_imageOrGradient st s p hps
    · simp at hp

/-- Witness for C1: a snapshot with both a gradient background-image
and a red background-color satisfies the hypotheses, and the
conclusion holds there. -/
theorem parseBackground_trailing_solid_witness :
    c1Style.backgroundColor ≠ "" ∧
    isTransparentColorString c1Style.backgroundColor = false ∧
    isTransparent (parseColor c1Style.backgroundColor (some (parseColor c1Style.color none))) = false ∧
    ∃ pre,
      parseBackground c1Style =
        pre ++ [Paint.solid (parseColor c1Style.backgroundColor (some (parseColor c1Style.color none))) 1 true]
        ∧ ∀ p ∈ pre, paintIsImageOrGradient p = true :=
  ⟨by decide, by decide, by decide,
    parseBackground_trailing_solid c1Style (by decide) (by decide) (by decide)⟩

/-! ### C4 -/

/-- C4 counterexample: `linear-gradient(red, green, blue)` has three
stops and no explicit positions, yet `parseGradient` returns only two
stops at positions `[0, 1]` (the unconditional angle-strip of
`parseGradientStops` consumes the first color), not three stops at
`[0, 0.5, 1]`. -/
theorem gradient_three_stops_counterexample :
    (parseGradient "linear-gradient(red, green, blue)").map
        (fun g => g.stops.map (fun s => s.position)) = some [0, 1] ∧
    (parseGradient "linear-gradient(red, green, blue)").map
        (fun g => g.stops.map (fun s => s.position)) ≠ some [0, q 1 2, 1] := by
  constructor
  · decide
  · decide

/-- C4 amended: `parseGradientStops` unconditionally strips everything
up to the first comma as the angle/direction segment; for a gradient
whose argument list begins with a direction followed by three stops
without explicit positions, the positions are evenly distributed as
`[0, 0.5, 1]` in declaration order (each positionless stop receives
`idx / (stops - 1)` in the post-pass over just the unset ones). -/
theorem gradient_stops_even_distribution_amended :
    parseGradient "linear-gradient(to right, red, green, blue)" =
      some ⟨true,
        [⟨0, ⟨1, 0, 0, some 1⟩⟩, ⟨q 1 2, ⟨0, q 502 1000, 0, some 1⟩⟩, ⟨1, ⟨0, 0, 1, some 1⟩⟩],
        some 90⟩ ∧
    parseGradient "linear-gradient(90deg, red 20%, blue 80%)" =
      some ⟨true, [⟨q 1 5, ⟨1, 0, 0, some 1⟩⟩, ⟨q 4 5, ⟨0, 0, 1, some 1⟩⟩], some 90⟩ := by
  constructor
  · decide
  · decide

/-! ### C5 -/

/-- C5: the hsl branch of `parseColor` does not clamp.  At the failing
input `hsl(0, 500%, 50%)` the returned channels are `(3, −2, −2)` —
outside `[0, 1]` — contradicting the always-clamped invariant the
other branches establish through `clamp01`. -/
theorem parseColor_hsl_unclamped :
    parseColor "hsl(0, 500%, 50%)" none = ⟨3, -2, -2, some 1⟩ ∧
    ¬((0 : Rat) ≤ (parseColor "hsl(0, 500%, 50%)" none).r
      ∧ (parseColor "hsl(0, 500%, 50%)" none).r ≤ 1) := by
  constructor
  · decide
  · decide

/-! ### C6 -/

/-- C6: `parseColor` returns the supplied fallback for each of
`currentColor`, `inherit`, `initial` and `unset`; returns opaque black
for those keywords without a fallback; and returns opaque black for
every input no branch recognizes — it is total and never fails the
caller. -/
theorem parseColor_keywords_and_default :
    (∀ fb : RGBA,
      parseColor "currentColor" (some fb) = fb ∧ parseColor "inherit" (some fb) = fb
        ∧ parseColor "initial" (some fb) = fb ∧ parseColor "unset" (some fb) = fb)
    ∧ (parseColor "currentColor" none = ⟨0, 0, 0, some 1⟩
        ∧ parseColor "inherit" none = ⟨0, 0, 0, some 1⟩
        ∧ parseColor "initial" none = ⟨0, 0, 0, some 1⟩
        ∧ parseColor "unset" none = ⟨0, 0, 0, some 1⟩)
    ∧ ∀ (s : String) (fb : Option RGBA),
        parseColorRecognized s = false → parseColor s fb = ⟨0, 0, 0, some 1⟩ := by
  refine ⟨fun fb => ⟨rfl, rfl, rfl, rfl⟩, ⟨rfl, rfl, rfl, rfl⟩, ?_⟩
  intro s fb h
  simp only [parseColorRecognized, Bool.or_eq_false_iff, decide_eq_false_iff_not] at h
  obtain ⟨⟨⟨⟨⟨⟨⟨⟨⟨⟨hk1, hk2⟩, hk3⟩, hk4⟩, ht1⟩, ht2⟩, hm1⟩, hm2⟩, hm3⟩, hm4⟩, hm5⟩ := h
  have e1 : searchPos matchRgbaCommaAt s.data = none := by
    cases hx : searchPos matchRgbaCommaAt s.data
    · rfl
    · rw [hx] at hm1
      simp at hm1
  have e2 : searchPos matchRgbaSpaceAt s.data = none := by
    cases hx : searchPos matchRgbaSpaceAt s.data
    · rfl
    · rw [hx] at hm2
      simp at hm2
  have e3 : searchPos matchHslAt s.data = none := by
    cases hx : searchPos matchHslAt s.data
    · rfl
    · rw [hx] at hm3
      simp at hm3
  have e4 : hexAnchored s.data = none := by
    cases hx : hexAnchored s.data
    · rfl
    · rw [hx] at hm4
      simp at hm4
  have e5 : namedColors (String.mk (lowerL s.data)) = none := by
    cases hx : namedColors (String.mk (lowerL s.data))
    · rfl
    · rw [hx] at hm5
      simp at hm5
  simp only [parseColor, e1, e2, e3, e4, e5]
  simp [hk1, hk2, hk3, hk4, ht1, ht2]

/-- Witness for C6's unrecognized-input clause at the input `zzz` with
a red fallback. -/
theorem parseColor_keywords_and_default_witness :
    parseColorRecognized "zzz" = false ∧
    parseColor "zzz" (some ⟨1, 0, 0, some 1⟩) = ⟨0, 0, 0, some 1⟩ :=
  ⟨by decide,
    parseColor_keywords_and_default.2.2 "zzz" (some ⟨1, 0, 0, some 1⟩) (by decide)⟩

/-! ### C7 -/

/-- C7: `parseBoxShadow` splits at top-level commas; each entry strips
`inset` (mapping to an inner shadow), extracts one color token (rgba,
then hex, then named), and reads the remaining numeric tokens
positionally as offsetX, offsetY, blur and spread, discarding entries
with fewer than two numbers.  In particular
`2px 4px 6px rgba(0,0,0,0.25)` yields one drop shadow with offset
(2, 4), radius 6, alpha 0.25 and spread 0; the second input exercises
the comma split, the `inset` mapping, the hex/named color extraction
and the fewer-than-two-numbers discard. -/
theorem parseBoxShadow_positional :
    parseBoxShadow { boxShadow := "2px 4px 6px rgba(0,0,0,0.25)" } =
      [.shadow false ⟨0, 0, 0, some (q 1 4)⟩ 2 4 6 0 true] ∧
    parseBoxShadow { boxShadow := "inset 1px 2px red, 5px blue, 3px 4px #abc" } =
      [.shadow true ⟨1, 0, 0, some 1⟩ 1 2 0 0 true,
        .shadow false ⟨q 170 255, q 187 255, q 204 255, some 1⟩ 3 4 0 0 true] := by
  constructor
  · decide
  · decide

/-! ### C8 -/

/-- C8 counterexample: the claim resolves `'150%'` to 1.5 × fontSize,
but `parseLineHeight` parses `150` and never divides a percentage by
100: at fontSize 16 it returns 2400, not 24. -/
theorem parseLineHeight_percentage_counterexample :
    parseLineHeight "150%" "16px" = .px 2400 ∧
    parseLineHeight "150%" "16px" ≠ .px (qmul (q 3 2) 16) := by
  constructor
  · decide
  · decide

/-- C8 amended: `normal` resolves to 1.2 × fontSize rounded to two
decimals (19.2 at 16px; 19.6 — not 19.5996 — at 16.333px); a unitless
value resolves to ratio × fontSize; a percentage `N%` is treated as
the unitless number `N` (multiplied by fontSize, the `%` never divided
out); a pixel literal is returned verbatim; an unparsable value
resolves to AUTO. -/
theorem parseLineHeight_resolution_amended :
    parseLineHeight "normal" "16px" = .px (q 96 5) ∧
    parseLineHeight "normal" "16.333px" = .px (q 98 5) ∧
    parseLineHeight "1.5" "16px" = .px 24 ∧
    parseLineHeight "150%" "16px" = .px 2400 ∧
    parseLineHeight "24px" "16px" = .px 24 ∧
    parseLineHeight "oops" "16px" = .auto := by
  refine ⟨?_, ?_, ?_, ?_, ?_, ?_⟩ <;> decide

/-! ### C2 -/

/-- C2 counterexample: with gaps of 10 and 30 in a block container,
`itemSpacing` becomes the minimum (10) as claimed, but the synthesized
transparent wrapper absorbs the excess 20 units around the child
*preceding* the 30-unit gap (index 1: height 30 = 10 + 20, one nested
child, `paddingBottom = 20`), while the child *following* that gap
(index 2) is returned untouched (height 10, no nested child, no
padding) — refuting the claim that the following child is wrapped. -/
theorem blockGap_wrap_precedes_gap_counterexample :
    blockGapUneven.map (fun l => l.data.autoLayout.map (fun a => a.itemSpacing)) =
      some (some 10) ∧
    blockGapUneven.map (fun l => l.children.map (fun c =>
        (c.data.height, c.children.length,
          c.data.autoLayout.map (fun a => a.paddingBottom)))) =
      some [(10, 0, some 0), (30, 1, some 20), (10, 0, some 0)] := by
  constructor
  · decide
  · decide

/-- C2 amended: for a block-flow auto-layout container with flow
children, uniform measured gaps (within 4 units) set `itemSpacing` to
their average with no wrapper synthesized (the 0/20/40 example gives
10); uneven gaps (10 and 30) set `itemSpacing` to the minimum 10 and
wrap the child *whose trailing gap is* the 30-unit gap (the one
preceding it) in a synthesized transparent Frame whose trailing
padding contributes the remaining 20 units, re-homing that child at
the wrapper's origin. -/
theorem blockGap_inference_amended :
    blockGapUniform.map (fun l => l.data.autoLayout.map (fun a => a.itemSpacing)) =
      some (some 10) ∧
    blockGapUniform.map (fun l => l.children.map (fun c =>
        (c.data.height, c.children.length))) = some [(10, 0), (10, 0), (10, 0)] ∧
    blockGapUneven.map (fun l => l.data.autoLayout.map (fun a => a.itemSpacing)) =
      some (some 10) ∧
    blockGapUneven.map (fun l => l.children.map (fun c =>
        (c.data.height, c.data.fills.length,
          c.data.autoLayout.map (fun a => (a.paddingBottom, a.paddingTop))))) =
      some [(10, 0, some (0, 0)), (30, 0, some (20, 0)), (10, 0, some (0, 0))] ∧
    blockGapUneven.map (fun l => l.children.map (fun c =>
        c.children.map (fun g => (g.data.y, g.data.height)))) =
      some [[], [(0, 10)], []] := by
  refine ⟨?_, ?_, ?_, ?_, ?_⟩ <;> decide

/-! ### C3 -/

/-- C3 counterexample: the z-index sort runs *before* pseudo-element
capture, and `::before` is prepended unconditionally: a container with
a `::before` text node (resolved z-index 0) and a flow child with
`z-index: -5` returns the child list `[0, -5]` — not non-decreasing. -/
theorem children_zorder_pseudo_counterexample :
    beforeNegZRun.map (fun l => nonDecreasing (l.children.map resolvedZ)) = some false ∧
    beforeNegZRun.map (fun l => l.children.map resolvedZ) = some [0, -5] := by
  constructor
  · decide
  · decide

/-- The sort relation used by the builder is total. -/
instance : IsTotal LayerMeta (fun a b => resolvedZ a ≤ resolvedZ b) :=
  ⟨fun a b => le_total (resolvedZ a) (resolvedZ b)⟩

/-- The sort relation used by the builder is transitive. -/
instance : IsTrans LayerMeta (fun a b => resolvedZ a ≤ resolvedZ b) :=
  ⟨fun _ _ _ => le_trans⟩

/-- A list sorted by resolved z-index projects to a non-decreasing
list of z values. -/
theorem nonDecreasing_of_sorted :
    ∀ l : List LayerMeta, List.Sorted (fun a b => resolvedZ a ≤ resolvedZ b) l →
      nonDecreasing (l.map resolvedZ) = true
  | [], _ => rfl
  | [_], _ => rfl
  | a :: b :: r, h => by
    have hp := List.pairwise_cons.mp h
    have hab : resolvedZ a ≤ resolvedZ b := hp.1 b (by simp)
    have ht := nonDecreasing_of_sorted (b :: r) hp.2
    simp only [List.map_cons, nonDecreasing] at ht ⊢
    simp [hab, ht]

/-- C3 amended: the children array is sorted ascending by resolved
z-index (default 0) at the point of the sort — after the synthesized
Text child exists but *before* pseudo-element capture and gap-wrapper
synthesis: `sortChildrenByZ` always yields a non-decreasing z
sequence, and in a container with no pseudo-elements and uniform gaps
the returned children carry it through (z-indexes 5/−5/0 come back as
−5/0/5); the `::before`/`::after` nodes are then prepended/appended
regardless of z-index (see the counterexample). -/
theorem children_zorder_sorted_before_pseudo :
    (∀ cs : List LayerMeta, nonDecreasing ((sortChildrenByZ cs).map resolvedZ) = true) ∧
    sortPipelineRun.map (fun l => l.children.map resolvedZ) = some [-5, 0, 5] ∧
    sortPipelineRun.map (fun l => nonDecreasing (l.children.map resolvedZ)) = some true := by
  refine ⟨?_, by decide, by decide⟩
  intro cs
  exact nonDecreasing_of_sorted _ (List.sorted_insertionSort _ cs)

/-! ### C9 -/

/-- C9 counterexample: a visible 0 × 100 box has zero area
(width × height = 0) yet is *not* skipped — the source only returns
null when width and height are both zero. -/
theorem zero_area_not_skipped_counterexample :
    zeroWidthEl.rect.width = 0 ∧ zeroWidthEl.rect.height = 100 ∧
    qmul zeroWidthEl.rect.width zeroWidthEl.rect.height = 0 ∧
    (convertElement zeroOracle zeroWidthEl [] DEFAULT_OPTIONS 0 none).isSome = true := by
  refine ⟨?_, ?_, ?_, ?_⟩ <;> decide

/-- The body of `convertGo` at positive fuel returns `none` exactly at
its three guards. -/
theorem convertGo_succ_none_iff (f : Nat) (o : MathOracle) (d : ElemData)
    (kids : List DomNode) (opts : ReqOptions) (pd : Option String) :
    convertGo (f + 1) o d kids opts pd = none ↔
      (isNonVisualElement (String.mk (lowerL d.tagName.data)) = true
        ∨ (opts.includeHidden = false ∧ isVisible d.styles = false)
        ∨ (d.rect.width = 0 ∧ d.rect.height = 0)) := by
  simp only [convertGo]
  cases hnv : isNonVisualElement (String.mk (lowerL d.tagName.data)) with
  | true => simp [hnv]
  | false =>
    cases hih : opts.includeHidden <;> cases hv : isVisible d.styles <;>
      by_cases hw : d.rect.width = 0 <;> by_cases hh : d.rect.height = 0 <;>
        simp [hnv, hih, hv, hw, hh]

/-- C9 amended: `convertElement` (entered through `domToLayer`, whose
default depth limit is 50) returns null — a normal outcome — exactly
when: the depth budget is exceeded; the tag is non-visual; the node is
invisible (display none, visibility hidden or resolved opacity ≤ 0)
and hidden capture was not requested; or the measured box is zero in
*both* dimensions (width = 0 and height = 0, not merely zero area). -/
theorem convertElement_none_iff :
    DEFAULT_OPTIONS.maxDepth = 50 ∧
    ∀ (o : MathOracle) (d : ElemData) (kids : List DomNode) (opts : ReqOptions)
      (depth : Nat) (pd : Option String),
      convertElement o d kids opts depth pd = none ↔
        (opts.maxDepth < depth
          ∨ isNonVisualElement (String.mk (lowerL d.tagName.data)) = true
          ∨ (opts.includeHidden = false ∧ isVisible d.styles = false)
          ∨ (d.rect.width = 0 ∧ d.rect.height = 0)) := by
  refine ⟨rfl, ?_⟩
  intro o d kids opts depth pd
  unfold convertElement
  rcases Nat.lt_or_ge opts.maxDepth depth with hlt | hge
  · have h0 : opts.maxDepth + 1 - depth = 0 := by omega
    rw [h0]
    simp only [convertGo]
    simp [hlt]
  · obtain ⟨f, hf⟩ : ∃ f, opts.maxDepth + 1 - depth = f + 1 :=
      ⟨opts.maxDepth - depth, by omega⟩
    rw [hf, convertGo_succ_none_iff]
    have hnlt : ¬ opts.maxDepth < depth := by omega
    simp [hnlt]

/-! ### C10 : supporting lemmas -/

/-- Membership characterization of `allVisibleList`. -/
theorem allVisibleList_iff_mem :
    ∀ l : List LayerMeta, allVisibleList l = true ↔ ∀ x ∈ l, allVisible x = true
  | [] => by simp [allVisibleList]
  | x :: xs => by
    simp only [allVisibleList, Bool.and_eq_true, allVisibleList_iff_mem xs]
    simp

/-- `allVisibleList` distributes over append. -/
theorem allVisibleList_append (l1 l2 : List LayerMeta) :
    allVisibleList (l1 ++ l2) = (allVisibleList l1 && allVisibleList l2) := by
  induction l1 with
  | nil => simp [allVisibleList]
  | cons x xs ih => simp [allVisibleList, ih, Bool.and_assoc]

/-- `mkBaseLayer` constructs a visible layer. -/
theorem visible_mkBaseLayer (o : MathOracle) (d : ElemData) (kids : List DomNode)
    (opts : ReqOptions) : (mkBaseLayer o d kids opts).visible = true := rfl

/-- `applyInputDefaults` leaves `visible` unchanged. -/
theorem visible_applyInputDefaults (d : ElemData) (s : Style) (b : LayerData) :
    (applyInputDefaults d s b).visible = b.visible := by
  simp only [applyInputDefaults]
  repeat' split
  all_goals rfl

/-- `applyMaxWidthExpansion` leaves `visible` unchanged. -/
theorem visible_applyMaxWidthExpansion (s : Style) (pd : Option String) (b : LayerData) :
    (applyMaxWidthExpansion s pd b).visible = b.visible := by
  simp only [applyMaxWidthExpansion]
  repeat' split
  all_goals rfl

/-- `applyTextContent` leaves `visible` unchanged. -/
theorem visible_applyTextContent (d : ElemData) (kids : List DomNode) (s : Style)
    (b : LayerData) : (applyTextContent d kids s b).visible = b.visible := by
  simp only [applyTextContent]
  repeat' split
  all_goals rfl

/-- `applyImgFill` leaves `visible` unchanged. -/
theorem visible_applyImgFill (d : ElemData) (s : Style) (b : LayerData) :
    (applyImgFill d s b).visible = b.visible := by
  simp only [applyImgFill]
  repeat' split
  all_goals rfl

/-- `withAutoLayoutStyle` leaves `visible` unchanged. -/
theorem visible_withAutoLayoutStyle (s : Style) (b : LayerData) :
    (withAutoLayoutStyle s b).visible = b.visible := by
  simp only [withAutoLayoutStyle]
  repeat' split
  all_goals rfl

/-- `prepareBase` yields a visible base layer. -/
theorem visible_prepareBase (o : MathOracle) (d : ElemData) (kids : List DomNode)
    (opts : ReqOptions) (pd : Option String) :
    (prepareBase o d kids opts pd).visible = true := by
  simp only [prepareBase]
  split <;>
    simp [visible_applyTextContent, visible_applyMaxWidthExpansion,
      visible_applyInputDefaults, visible_mkBaseLayer]

/-- `applyCenterDetection` leaves `visible` unchanged. -/
theorem visible_applyCenterDetection (b : LayerData) (cs : List LayerMeta) :
    (applyCenterDetection b cs).visible = b.visible := by
  simp only [applyCenterDetection]
  repeat' split
  all_goals rfl

/-- `applyGapInference` leaves the layer's `visible` unchanged. -/
theorem visible_applyGapInference (b : LayerData) (s : Style) (cs : List LayerMeta) :
    (applyGapInference b s cs).1.visible = b.visible := by
  simp only [applyGapInference]
  repeat' split
  all_goals rfl

/-- `synthesizeTextChild` leaves the layer's `visible` unchanged. -/
theorem visible_synthesizeTextChild (b : LayerData) (d : ElemData) (kids : List DomNode)
    (s : Style) (r : Rect) (cs : List LayerMeta) :
    (synthesizeTextChild b d kids s r cs).1.visible = b.visible := by
  simp only [synthesizeTextChild]
  repeat' split
  all_goals rfl

/-- `synthesizeTextChild` preserves child visibility (the synthesized
text child is constructed visible). -/
theorem allVisible_synthesizeTextChild (b : LayerData) (d : ElemData) (kids : List DomNode)
    (s : Style) (r : Rect) (cs : List LayerMeta) (hc : allVisibleList cs = true) :
    allVisibleList (synthesizeTextChild b d kids s r cs).2 = true := by
  simp only [synthesizeTextChild]
  repeat' split
  all_goals simp [allVisibleList_append, allVisibleList, allVisible, hc]

/-- `adjustForFixedTop` does not change tree visibility. -/
theorem allVisible_adjustForFixedTop (fth : Rat) (c : LayerMeta) :
    allVisible (adjustForFixedTop fth c) = allVisible c := by
  cases c with
  | node dta cs =>
    simp only [adjustForFixedTop, withY]
    repeat' split
    all_goals rfl

/-- The z sort preserves child visibility (it is a permutation). -/
theorem allVisible_sortChildrenByZ (cs : List LayerMeta) (hc : allVisibleList cs = true) :
    allVisibleList (sortChildrenByZ cs) = true := by
  rw [allVisibleList_iff_mem] at hc ⊢
  intro x hx
  simp only [sortChildrenByZ] at hx
  exact hc x ((List.perm_insertionSort _ cs).mem_iff.mp hx)

/-- Every captured pseudo-element node is visible (both the rasterized
icon path and the text/frame path construct `visible := true` leaves). -/
theorem allVisible_capturePseudoElement (p : String) (st : Style) (ir : Option String)
    (er : Rect) (n : LayerMeta) (h : capturePseudoElement p st ir er = some n) :
    allVisible n = true := by
  simp only [capturePseudoElement] at h
  split at h
  · exact Option.noConfusion h
  · split at h
    · exact Option.noConfusion h
    · split at h
      · rename_i x heq
        cases Option.some.inj h
        split at heq
        · split at heq
          · cases Option.some.inj heq
            simp [allVisible, allVisibleList]
          · exact Option.noConfusion heq
        · exact Option.noConfusion heq
      · split at h
        · exact Option.noConfusion h
        · cases Option.some.inj h
          simp [allVisible, allVisibleList]

/-- Inserting a captured `::before` node preserves child visibility. -/
theorem allVisibleList_insertPseudoBefore (d : ElemData) (ch : List LayerMeta)
    (hch : allVisibleList ch = true) :
    allVisibleList (insertPseudoBefore d ch) = true := by
  simp only [insertPseudoBefore]
  split
  · split
    · rename_i st hst bn hbn
      simp only [allVisibleList, Bool.and_eq_true]
      exact ⟨allVisible_capturePseudoElement _ _ _ _ _ hbn, hch⟩
    · exact hch
  · exact hch

/-- Inserting a captured `::after` node preserves child visibility. -/
theorem allVisibleList_insertPseudoAfter (d : ElemData) (ch : List LayerMeta)
    (hch : allVisibleList ch = true) :
    allVisibleList (insertPseudoAfter d ch) = true := by
  simp only [insertPseudoAfter]
  split
  · split
    · rename_i st hst an han
      rw [allVisibleList_append]
      simp only [Bool.and_eq_true]
      refine ⟨hch, ?_⟩
      simp only [allVisibleList, Bool.and_eq_true]
      exact ⟨allVisible_capturePseudoElement _ _ _ _ _ han, by trivial⟩
    · exact hch
  · exact hch

/-- Wrapping a visible child yields a visible wrapper tree. -/
theorem allVisible_wrapChild (al : AutoLayoutConfig) (iv : Bool) (eg : Rat)
    (c : LayerMeta) (hc : allVisible c = true) :
    allVisible (wrapChild al iv eg c) = true := by
  cases c with
  | node dta cs =>
    simp only [allVisible, Bool.and_eq_true] at hc
    simp [wrapChild, allVisible, allVisibleList, LayerMeta.data, LayerMeta.children,
      hc.1, hc.2]

/-- The uneven-gap wrapping pass preserves child visibility. -/
theorem allVisible_wrapUneven (al : AutoLayoutConfig) (iv : Bool) (mg : Rat)
    (gaps : List Rat) :
    ∀ (cs : List LayerMeta) (fi : Nat), allVisibleList cs = true →
      allVisibleList (wrapUneven al iv mg gaps cs fi) = true
  | [], _, _ => rfl
  | c :: rest, fi, hc => by
    simp only [allVisibleList, Bool.and_eq_true] at hc
    simp only [wrapUneven]
    split
    · split
      · simp only [allVisibleList, Bool.and_eq_true]
        exact ⟨allVisible_wrapChild _ _ _ _ hc.1,
          allVisible_wrapUneven al iv mg gaps rest (fi + 1) hc.2⟩
      · simp only [allVisibleList, Bool.and_eq_true]
        exact ⟨hc.1, allVisible_wrapUneven al iv mg gaps rest (fi + 1) hc.2⟩
    · simp only [allVisibleList, Bool.and_eq_true]
      exact ⟨hc.1, allVisible_wrapUneven al iv mg gaps rest fi hc.2⟩

/-- Gap inference preserves child visibility. -/
theorem allVisible_applyGapInference (b : LayerData) (s : Style) (cs : List LayerMeta)
    (hc : allVisibleList cs = true) :
    allVisibleList (applyGapInference b s cs).2 = true := by
  simp only [applyGapInference]
  repeat' split
  all_goals first
    | exact hc
    | exact allVisible_wrapUneven _ _ _ _ cs 0 hc

/-- Child assembly preserves the `visible` invariant. -/
theorem allVisible_assembleFrame (b : LayerData) (d : ElemData) (kids : List DomNode)
    (converted : List LayerMeta) (hb : b.visible = true)
    (hc : allVisibleList converted = true) :
    allVisible (assembleFrame b d kids converted) = true := by
  have h2 : allVisibleList
      (insertPseudoAfter d (insertPseudoBefore d
        (sortChildrenByZ (synthesizeTextChild b d kids d.styles d.rect converted).2))) =
        true :=
    allVisibleList_insertPseudoAfter d _
      (allVisibleList_insertPseudoBefore d _
        (allVisible_sortChildrenByZ _
          (allVisible_synthesizeTextChild b d kids d.styles d.rect converted hc)))
  simp only [assembleFrame, allVisible, Bool.and_eq_true]
  constructor
  · rw [visible_applyCenterDetection, visible_applyGapInference,
      visible_synthesizeTextChild]
    exact hb
  · exact allVisible_applyGapInference _ d.styles _ h2

/-- The tail of the element conversion yields an all-visible tree from a
visible base and all-visible converted children. -/
theorem allVisible_convertTail (d : ElemData) (kids : List DomNode) (opts : ReqOptions)
    (converted : List LayerMeta) (base : LayerData) (hb : base.visible = true)
    (hc : allVisibleList converted = true) :
    allVisible (convertTail d kids opts converted base) = true := by
  simp only [convertTail]
  repeat' split
  all_goals first
    | (simp [allVisible, allVisibleList, visible_withAutoLayoutStyle,
        visible_applyImgFill, hb]
       done)
    | (apply allVisible_assembleFrame _ d kids converted _ hc
       rw [visible_withAutoLayoutStyle]
       first
         | (rw [visible_applyImgFill]
            exact hb)
         | exact hb)

/-- `convertCore` always produces a tree whose nodes are all visible,
provided the converted children are. -/
theorem allVisible_convertCore (o : MathOracle) (d : ElemData) (kids : List DomNode)
    (opts : ReqOptions) (pd : Option String) (converted : List LayerMeta)
    (hc : allVisibleList converted = true) :
    allVisible (convertCore o d kids opts pd converted) = true :=
  allVisible_convertTail d kids opts converted _ (visible_prepareBase o d kids opts pd) hc

/-- The recursive builder only emits visible nodes. -/
theorem convertGo_allVisible :
    ∀ (fuel : Nat) (o : MathOracle) (d : ElemData) (kids : List DomNode)
      (opts : ReqOptions) (pd : Option String) (l : LayerMeta),
      convertGo fuel o d kids opts pd = some l → allVisible l = true := by
  intro fuel
  induction fuel with
  | zero =>
    intro o d kids opts pd l h
    exact Option.noConfusion h
  | succ f ih =>
    intro o d kids opts pd l h
    simp only [convertGo] at h
    split_ifs at h
    cases Option.some.inj h
    refine allVisible_convertCore o d kids opts pd _ ?_
    rw [allVisibleList_iff_mem]
    intro x hx
    rw [List.mem_filterMap] at hx
    obtain ⟨ck, _, hck⟩ := hx
    cases hg : convertGo f o ck.1 ck.2
        { opts with rootOffsetX := d.rect.left, rootOffsetY := d.rect.top }
        (some d.styles.display) with
    | none =>
      rw [hg] at hck
      exact Option.noConfusion hck
    | some c =>
      rw [hg] at hck
      cases Option.some.inj hck
      rw [allVisible_adjustForFixedTop]
      exact ih o ck.1 ck.2 _ _ c hg

/-! ### C10 -/

/-- C10: every node of a layer tree returned by `domToLayer` — element
nodes, synthesized text children, gap-inference wrapper frames and
captured pseudo-element nodes alike — carries `visible = true`,
regardless of the `includeHidden` option. -/
theorem domToLayer_allVisible (o : MathOracle) (d : ElemData) (kids : List DomNode)
    (options : ConversionOptions) (pd : Option String) (l : LayerMeta)
    (h : domToLayer o d kids options pd = some l) : allVisible l = true :=
  convertGo_allVisible _ o d kids _ pd l h

/-- Witness for C10: a hidden-capture run (`includeHidden := true`) over
a container with a `display: none` child and an `opacity: 0` child
produces a tree, and every node of it is visible. -/
theorem domToLayer_allVisible_witness :
    ∃ l, hiddenCaptureRun = some l ∧ allVisible l = true := by
  cases hm : hiddenCaptureRun with
  | none =>
    have hs : hiddenCaptureRun.isSome = true := by decide
    rw [hm] at hs
    exact Bool.noConfusion hs
  | some l =>
    exact ⟨l, rfl, domToLayer_allVisible zeroOracle hiddenContainer hiddenKids
      includeHiddenOpts none l hm⟩

end FigmaCapture
